import Mathlib

/-!
# Task geometry of the Gantt chart

A shallow embedding of `src/core/logic/task/task.factory.js` (the `GanttTask` factory).

Conventions of the embedding:

* timestamps (`model.from`, `model.to`, column dates; the fields are `from_` and `to_`
  here) and pixel offsets are integers;
  moment objects are compared through their timestamp, as JavaScript does; only
  `isMilestone`, which tests `model.to` for truthiness, tells a number from an object
  (`DateValue`);
* a JavaScript value that may be `undefined` is an `Option`; `model.to` may be unset, and
  a width computed from it is then `NaN` (`Num`);
* the chart (`this.rowsManager.gantt`) and the moment.js alignment functions are not part
  of the modelled file: they are the fields of the parameter `Gantt`;
* `updateView` only writes to the DOM element and is not modelled;
* calls that leave the task (`row.setFromTo()`, the registered callback, the `viewChange`
  notification) are recorded, in order, as a list of `Event`s.
-/

namespace GanttTask

/-- Change units understood by moment.js (`startOf` / `endOf`). -/
inductive TimeUnit
  | year | quarter | month | week | isoWeek | day | hour | minute | second | millisecond
  deriving DecidableEq, Repr

/-- A JavaScript number as this file meets it: an integer or `NaN`. -/
inductive Num
  | nan
  | num (value : Int)
  deriving DecidableEq, Repr

/-- The number of a value that may be `undefined`: `undefined` becomes `NaN`. -/
def Num.ofOption : Option Int → Num
  | some value => .num value
  | none => .nan

/-- JavaScript `+`. -/
def Num.add : Num → Num → Num
  | .num a, .num b => .num (a + b)
  | _, _ => .nan

/-- JavaScript `-`. -/
def Num.sub : Num → Num → Num
  | .num a, .num b => .num (a - b)
  | _, _ => .nan

/-- JavaScript `<`: false as soon as one side is `NaN`. -/
def Num.lt : Num → Num → Bool
  | .num a, .num b => decide (a < b)
  | _, _ => false

/-- JavaScript `<=`: false as soon as one side is `NaN`. -/
def Num.le : Num → Num → Bool
  | .num a, .num b => decide (a ≤ b)
  | _, _ => false

/-- JavaScript `>`: false as soon as one side is `NaN`. -/
def Num.gt (a b : Num) : Bool :=
  Num.lt b a

/-- JavaScript `!==` on two values that are `undefined` or numbers: `NaN` differs from every
value, itself included. -/
def strictNe : Option Num → Option Num → Bool
  | none, none => false
  | some (.num a), some (.num b) => a != b
  | _, _ => true

/-- The fields of a column that the task logic reads. -/
structure Column where
  date : Int
  endDate : Int
  left : Int
  width : Int
  deriving DecidableEq, Repr

/-- The chart as seen from a task: `this.rowsManager.gantt`, together with moment.js: the two
alignment functions and `now`, the time that `moment(undefined)` stands for.
`getPositionByDate` is the chart's answer for a date; for `undefined` it answers `undefined`
(see `positionOf`). `getDateByPosition` receives `none` when the position handed to it is
not a number. -/
structure Gantt where
  getFirstColumn : Option Column
  getLastColumn : Option Column
  width : Int
  daily : Bool
  isRefreshingColumns : Bool
  columnMagnetUnit : TimeUnit
  getPositionByDate : Int → Int
  getDateByPosition : Option Int → Bool → Int
  startOf : TimeUnit → Int → Int
  endOf : TimeUnit → Int → Int
  now : Int

/-- The task model: the interval of the task. The end `to` may be unset. -/
structure Model where
  from_ : Int
  to_ : Option Int
  deriving DecidableEq, Repr

/-- The fields of a `Task` object that `task.factory.js` reads or writes. -/
structure Task where
  model : Model
  isMoving : Bool
  modelLeft : Option Int
  modelWidth : Option Num
  left : Option Int
  width : Option Num
  truncatedLeft : Bool
  truncatedRight : Bool
  deriving DecidableEq, Repr

/-- Calls that leave the task object, in the order in which they happen. -/
inductive Event
  | callback (fn : Nat) (thisArg : Option Nat) (model : Model)
  | setFromTo
  | viewChange (task : Task)
  deriving DecidableEq, Repr

/-- A function handed to `registerMoveToCallBack`: it is known by a name, and a call of it
with a receiver and a model either returns or throws. -/
structure Callback where
  name : Nat
  throws : Option Nat → Model → Bool

/-- The two module-level variables `moveToCallbackFn` and `moveToCallbackFnThis`. -/
structure Registry where
  moveToCallbackFn : Option Callback
  moveToCallbackFnThis : Option Nat

/-- What a call of a method leaves behind: the task, the calls it made, and whether an
exception reached the caller. -/
structure Outcome where
  task : Task
  events : List Event
  thrown : Bool

/-- The constructor `Task(row, model)` (lines 29-35): every field it does not assign is
`undefined`. -/
def Task.new (model : Model) : Task :=
  { model := model, isMoving := false, modelLeft := none, modelWidth := none,
    left := none, width := none, truncatedLeft := false, truncatedRight := false }

/-- `gantt.getPositionByDate(date)` for a date that may be `undefined`: the chart answers
`undefined` for `undefined`. -/
def positionOf (g : Gantt) (date : Option Int) : Option Int :=
  date.map g.getPositionByDate

/-- `Task.prototype.isOutOfRange` (lines 51-57). The comparison of an unset `model.to` with a
date is false. -/
def isOutOfRange (g : Gantt) (t : Task) : Bool :=
  match g.getFirstColumn with
  | none => true
  | some firstColumn =>
    if Num.lt (Num.ofOption t.model.to_) (.num firstColumn.date) then true
    else
      match g.getLastColumn with
      | none => true
      | some lastColumn => decide (t.model.from_ > lastColumn.endDate)

/-- The fields `this.modelLeft` and `this.modelWidth` as assigned in lines 66-72. With
`model.to` unset, line 71 subtracts a number from `undefined` and `modelWidth` is `NaN`. -/
def storedModel (g : Gantt) (t : Task) : Option Int × Option Num :=
  if !t.isMoving && isOutOfRange g t then (none, none)
  else
    (some (g.getPositionByDate t.model.from_),
     some (Num.sub (Num.ofOption (positionOf g t.model.to_))
            (.num (g.getPositionByDate t.model.from_))))

/-- The local `maxModelLeft` of line 75: the right edge of the last column, `0` without one. -/
def maxModelLeft (g : Gantt) : Int :=
  match g.getLastColumn with
  | some lastColumn => lastColumn.left + lastColumn.width
  | none => 0

/-- The locals `modelLeft` and `modelWidth` after lines 77-83: the stored values, replaced
in `daily` mode by the projection of the interval widened to whole days. For an unset
`model.to`, `moment(this.model.to)` is the current time. -/
def localModel (g : Gantt) (t : Task) : Option Int × Option Num :=
  if g.daily then
    (some (g.getPositionByDate (g.startOf TimeUnit.day t.model.from_)),
     some (.num (g.getPositionByDate (g.endOf TimeUnit.day (t.model.to_.getD g.now))
            - g.getPositionByDate (g.startOf TimeUnit.day t.model.from_))))
  else storedModel g t

/-- Visible geometry with its two truncation flags. -/
structure Geometry where
  left : Int
  width : Num
  truncatedLeft : Bool
  truncatedRight : Bool
  deriving DecidableEq, Repr

/-- Lines 90-108: clamp the left edge and cut the width at the chart's borders. -/
def truncate (ganttWidth modelLeft : Int) (modelWidth : Num) : Geometry :=
  let left := min (max modelLeft 0) ganttWidth
  if modelLeft < 0 then
    if Num.gt (Num.add modelWidth (.num modelLeft)) (.num ganttWidth) then
      { left := left, width := .num ganttWidth, truncatedLeft := true, truncatedRight := true }
    else
      { left := left, width := Num.add modelWidth (.num modelLeft), truncatedLeft := true,
        truncatedRight := false }
  else if Num.gt (Num.add modelWidth (.num modelLeft)) (.num ganttWidth) then
    { left := left, width := .num (ganttWidth - modelLeft), truncatedLeft := false,
      truncatedRight := true }
  else
    { left := left, width := modelWidth, truncatedLeft := false, truncatedRight := false }

/-- Lines 110-113: a negative width is turned around. `NaN < 0` is false. -/
def flipWidth (v : Geometry) : Geometry :=
  match v.width with
  | .num width =>
    if width < 0 then { v with left := v.left + width, width := .num (-width) } else v
  | .nan => v

/-- Lines 85-114: the view fields of the task computed from the locals `modelLeft`,
`modelWidth`. The first branch assigns `left` and `width` only. -/
def resolve (ganttWidth maxLeft : Int) (modelLeft : Option Int) (modelWidth : Option Num)
    (t : Task) : Task :=
  match modelLeft, modelWidth with
  | some ml, some mw =>
    if Num.lt (Num.add (.num ml) mw) (.num 0) = true ∨ ml > maxLeft then
      { t with left := none, width := none }
    else
      let v := flipWidth (truncate ganttWidth ml mw)
      { t with left := some v.left, width := some v.width,
               truncatedLeft := v.truncatedLeft, truncatedRight := v.truncatedRight }
  | _, _ => { t with left := none, width := none }

/-- The task after `Task.prototype.updatePosAndSize` (lines 60-116). -/
def updatedTask (g : Gantt) (t : Task) : Task :=
  resolve g.width (maxModelLeft g) (localModel g t).1 (localModel g t).2
    { t with modelLeft := (storedModel g t).1, modelWidth := (storedModel g t).2 }

/-- `Task.prototype.updatePosAndSize` (lines 60-124): the updated task and the `viewChange`
notification, raised when the chart is not refreshing its columns and a view field changed. -/
def updatePosAndSize (g : Gantt) (t : Task) : Task × List Event :=
  let t' := updatedTask g t
  if !g.isRefreshingColumns &&
      (t.left != t'.left || strictNe t.width t'.width ||
       t.truncatedRight != t'.truncatedRight || t.truncatedLeft != t'.truncatedLeft) then
    (t', [Event.viewChange t'])
  else (t', [])

/-- `Task.prototype.setFrom` (lines 178-185). -/
def setFrom (g : Gantt) (t : Task) (x : Int) (magnetEnabled : Bool) : Task × List Event :=
  let d := g.getDateByPosition (some x) false
  let d := if magnetEnabled then g.startOf g.columnMagnetUnit d else d
  let r := updatePosAndSize g { t with model := { t.model with from_ := d } }
  (r.1, Event.setFromTo :: r.2)

/-- `Task.prototype.setTo` (lines 190-197). -/
def setTo (g : Gantt) (t : Task) (x : Int) (magnetEnabled : Bool) : Task × List Event :=
  let d := g.getDateByPosition (some x) false
  let d := if magnetEnabled then g.endOf g.columnMagnetUnit d else d
  let r := updatePosAndSize g { t with model := { t.model with to_ := some d } }
  (r.1, Event.setFromTo :: r.2)

/-- The first `Task.prototype.moveTo` (lines 202-216), `originalFn` of the wrapper. When
`this.modelWidth` is `undefined` or `NaN` the sum `newTaskRight` is not a number. -/
def originalMoveTo (g : Gantt) (t : Task) (x : Int) (magnetEnabled : Bool) :
    Task × List Event :=
  let d := g.getDateByPosition (some x) false
  let newFrom := if magnetEnabled then g.startOf g.columnMagnetUnit d else d
  let newTaskLeft := g.getPositionByDate newFrom
  let newTaskRight :=
    match t.modelWidth with
    | some (.num w) => some (newTaskLeft + w)
    | _ => none
  let newTo := g.getDateByPosition newTaskRight false
  let r := updatePosAndSize g { t with model := { from_ := newFrom, to_ := some newTo } }
  (r.1, Event.setFromTo :: r.2)

/-- `Task.prototype.moveTo` as exported (lines 225-233): the registered callback, if any, is
called with the model first; when it throws nothing else happens. -/
def moveTo (r : Registry) (g : Gantt) (t : Task) (x : Int) (magnetEnabled : Bool) : Outcome :=
  match r.moveToCallbackFn with
  | some fn =>
    if fn.throws r.moveToCallbackFnThis t.model then
      { task := t, events := [Event.callback fn.name r.moveToCallbackFnThis t.model],
        thrown := true }
    else
      let o := originalMoveTo g t x magnetEnabled
      { task := o.1, events := Event.callback fn.name r.moveToCallbackFnThis t.model :: o.2,
        thrown := false }
  | none =>
    let o := originalMoveTo g t x magnetEnabled
    { task := o.1, events := o.2, thrown := false }

/-- `Task.registerMoveToCallBack` (lines 37-40): both variables are overwritten. The
argument `callbackFn` is taken to be a function. -/
def registerMoveToCallBack (_r : Registry) (callbackFn : Callback) (thisArg : Option Nat) :
    Registry :=
  { moveToCallbackFn := some callbackFn, moveToCallbackFnThis := thisArg }

/-- `Task.unregisterCallBack` (lines 42-45). -/
def unregisterCallBack (_r : Registry) : Registry :=
  { moveToCallbackFn := none, moveToCallbackFnThis := none }

/-- The registry when the module has been loaded: line 27 declares the two variables without
a value. -/
def Registry.initial : Registry :=
  { moveToCallbackFn := none, moveToCallbackFnThis := none }

/-- A call of one of the two functions that write the registry. -/
inductive RegistryCall
  | register (callbackFn : Callback) (thisArg : Option Nat)
  | unregister

/-- The registry after one call. -/
def RegistryCall.apply (r : Registry) : RegistryCall → Registry
  | .register callbackFn thisArg => registerMoveToCallBack r callbackFn thisArg
  | .unregister => unregisterCallBack r

/-- The registry after a sequence of calls, the first call first. -/
def applyCalls (r : Registry) (calls : List RegistryCall) : Registry :=
  calls.foldl RegistryCall.apply r

/-- The three gesture endpoints of a task. -/
inductive Endpoint
  | moveTo | setFrom | setTo
  deriving DecidableEq, Repr

/-- A call of a gesture endpoint while the module's registry is `r`: only `moveTo` reads the
registry, and `setFrom` and `setTo` contain nothing that throws. -/
def callEndpoint (e : Endpoint) (r : Registry) (g : Gantt) (t : Task) (x : Int)
    (magnetEnabled : Bool) : Outcome :=
  match e with
  | .moveTo => moveTo r g t x magnetEnabled
  | .setFrom =>
    { task := (setFrom g t x magnetEnabled).1, events := (setFrom g t x magnetEnabled).2,
      thrown := false }
  | .setTo =>
    { task := (setTo g t x magnetEnabled).1, events := (setTo g t x magnetEnabled).2,
      thrown := false }

/-- Whether an event is a call of the registered callback. -/
def Event.isCallback : Event → Bool
  | .callback _ _ _ => true
  | _ => false

/-- Whether an event is a `viewChange` notification. -/
def Event.isViewChange : Event → Bool
  | .viewChange _ => true
  | _ => false

/-- A value found in `model.from` or `model.to`, as far as `isMilestone` can tell values
apart: `undefined`, a number of milliseconds, or a moment or `Date` object with that
timestamp. -/
inductive DateValue
  | undefined
  | number (timestamp : Int)
  | object (timestamp : Int)
  deriving DecidableEq, Repr

/-- JavaScript truthiness: `!v` is the negation of it. An object is always truthy, the
number `0` is not. -/
def DateValue.truthy : DateValue → Bool
  | .undefined => false
  | .number timestamp => timestamp != 0
  | .object _ => true

/-- The number that `-` sees; `none` is `NaN`, the number of `undefined`. -/
def DateValue.valueOf : DateValue → Option Int
  | .undefined => none
  | .number timestamp => some timestamp
  | .object timestamp => some timestamp

/-- `Task.prototype.isMilestone` (lines 47-49) for a model with the given `from` and `to`:
a difference that is `NaN` is not `=== 0`. -/
def isMilestone (from_ to_ : DateValue) : Bool :=
  !to_.truthy ||
    (match from_.valueOf, to_.valueOf with
     | some a, some b => a - b == 0
     | _, _ => false)

/-! ### Example charts

Charts with one pixel per tick of time, on which the definitions above can be evaluated. -/

/-- Length in ticks of a change unit on the example charts: a tick is a minute, and months,
quarters and years are taken to have a fixed length. -/
def exampleUnitLength : TimeUnit → Int
  | .year => 525600
  | .quarter => 131400
  | .month => 43200
  | .week => 10080
  | .isoWeek => 10080
  | .day => 1440
  | .hour => 60
  | .minute => 1
  | .second => 1
  | .millisecond => 1

/-- A chart drawn with one pixel per tick, the date `firstDate` being at pixel `0`: its first
column is the hour that starts at `firstDate`, its last column is `lastColumn`, and
`ganttWidth` is the width it reports. -/
def linearGantt (firstDate ganttWidth : Int) (lastColumn : Column) (daily : Bool) : Gantt :=
  { getFirstColumn := some { date := firstDate, endDate := firstDate + 60, left := 0, width := 60 }
    getLastColumn := some lastColumn
    width := ganttWidth
    daily := daily
    isRefreshingColumns := false
    columnMagnetUnit := TimeUnit.day
    getPositionByDate := fun d => d - firstDate
    getDateByPosition := fun p _ =>
      match p with
      | some v => v + firstDate
      | none => firstDate
    startOf := fun u d => d - d % exampleUnitLength u
    endOf := fun u d => d - d % exampleUnitLength u + exampleUnitLength u - 1
    now := firstDate }

/-- A task with the interval `[from_, to_]` that has not been laid out yet. -/
def exampleTask (from_ to_ : Int) (isMoving : Bool) : Task :=
  { Task.new { from_ := from_, to_ := some to_ } with isMoving := isMoving }

/-- A task at `from_` whose `to` is unset and that has not been laid out yet. -/
def openTask (from_ : Int) : Task :=
  Task.new { from_ := from_, to_ := none }

/-- Whether a width is a number that is not negative; `NaN` is not. -/
def Num.nonneg : Num → Prop
  | .num value => 0 ≤ value
  | .nan => False

/-- The example chart of width `1000` whose last column ends at pixel `1000`. -/
def chart1000 : Gantt :=
  linearGantt 0 1000 { date := 940, endDate := 1000, left := 940, width := 60 } false

/-- An example chart that reports the width `1000` while its last column ends at pixel
`5000`. -/
def chartWide : Gantt :=
  linearGantt 0 1000 { date := 4940, endDate := 5000, left := 4940, width := 60 } false

/-- The usual `clamp`: `x` forced into the interval from `lo` to `hi`. -/
def clamp (x lo hi : Int) : Int :=
  if x < lo then lo else if hi < x then hi else x

/-- An example chart in `daily` mode with hour columns from noon of day `0` (tick `720`) to
noon of day `1` (tick `2160`), `1440` pixels wide. -/
def chartDaily : Gantt :=
  linearGantt 720 1440 { date := 2100, endDate := 2160, left := 1380, width := 60 } true

/-- The chart of width `1000` after its columns have moved on to the dates from `5000`. -/
def chartLater : Gantt :=
  linearGantt 5000 1000 { date := 5940, endDate := 6000, left := 940, width := 60 } false

/-- An example registry: a callback that never throws, registered with a receiver. -/
def exampleRegistry : Registry :=
  { moveToCallbackFn := some { name := 1, throws := fun _ _ => false }
    moveToCallbackFnThis := some 7 }

/-- An example registry whose callback throws on every call. -/
def throwingRegistry : Registry :=
  { moveToCallbackFn := some { name := 2, throws := fun _ _ => true }
    moveToCallbackFnThis := some 7 }

/-- The `daily` example chart when the unit that governs snapping is the hour. -/
def chartDailyHour : Gantt :=
  { chartDaily with columnMagnetUnit := TimeUnit.hour }

/-- The registered callback of a call sequence in the words of the specification: the one of
the most recent `registerMoveToCallBack`, if no `unregisterCallBack` followed it. -/
def lastRegistration (calls : List RegistryCall) : Option (Callback × Option Nat) :=
  match calls.getLast? with
  | some (.register callbackFn thisArg) => some (callbackFn, thisArg)
  | _ => none

/-- The condition of the change-notification rule in the words of the specification: the
chart is not refreshing its columns and one of `left`, `width`, `truncatedLeft`,
`truncatedRight` differs between the task before and after the call. Widths differ in the
sense of `!==`, for which `NaN` differs from `NaN`. -/
def notificationDue (g : Gantt) (before after : Task) : Prop :=
  g.isRefreshingColumns = false ∧
  (before.left ≠ after.left ∨ strictNe before.width after.width = true ∨
   before.truncatedLeft ≠ after.truncatedLeft ∨ before.truncatedRight ≠ after.truncatedRight)

end GanttTask

/-! ## Properties -/

namespace GanttTask

/-! ### JavaScript numbers -/

theorem Num.lt_num (a b : Int) : (Num.lt (.num a) (.num b) = true ↔ a < b) := by
  simp [Num.lt]

theorem Num.gt_num (a b : Int) : (Num.gt (.num a) (.num b) = true ↔ a > b) := by
  simp [Num.gt, Num.lt]

theorem strictNe_self_eq_false (a : Option Num) (h : a ≠ some Num.nan) :
    strictNe a a = false := by
  rcases a with _ | (_ | n)
  · rfl
  · exact absurd rfl h
  · simp [strictNe]

theorem strictNe_nan (a : Option Num) : strictNe a (some Num.nan) = true := by
  rcases a with _ | (_ | n) <;> rfl

/-! ### How `updatePosAndSize` is put together -/

theorem updatePosAndSize_fst (g : Gantt) (t : Task) :
    (updatePosAndSize g t).1 = updatedTask g t := by
  unfold updatePosAndSize
  dsimp only
  split <;> rfl

theorem updatedTask_onScreen (g : Gantt) (t : Task) (ml mw : Int)
    (h : localModel g t = (some ml, some (.num mw)))
    (hon : ¬ (ml + mw < 0 ∨ ml > maxModelLeft g)) :
    (updatedTask g t).left = some (flipWidth (truncate g.width ml (.num mw))).left ∧
    (updatedTask g t).width = some (flipWidth (truncate g.width ml (.num mw))).width ∧
    (updatedTask g t).truncatedLeft
      = (flipWidth (truncate g.width ml (.num mw))).truncatedLeft ∧
    (updatedTask g t).truncatedRight
      = (flipWidth (truncate g.width ml (.num mw))).truncatedRight := by
  unfold updatedTask
  rw [h]
  simp only [resolve, Num.add, Num.lt_num, if_neg hon, and_self]

theorem updatedTask_offScreen (g : Gantt) (t : Task) (ml mw : Int)
    (h : localModel g t = (some ml, some (.num mw)))
    (hoff : ml + mw < 0 ∨ ml > maxModelLeft g) :
    (updatedTask g t).left = none ∧ (updatedTask g t).width = none ∧
    (updatedTask g t).truncatedLeft = t.truncatedLeft ∧
    (updatedTask g t).truncatedRight = t.truncatedRight := by
  unfold updatedTask
  rw [h]
  simp only [resolve, Num.add, Num.lt_num, if_pos hoff, and_self]

theorem updatedTask_nan (g : Gantt) (t : Task) (ml : Int)
    (h : localModel g t = (some ml, some Num.nan)) :
    (ml > maxModelLeft g →
      (updatedTask g t).left = none ∧ (updatedTask g t).width = none ∧
      (updatedTask g t).truncatedLeft = t.truncatedLeft ∧
      (updatedTask g t).truncatedRight = t.truncatedRight) ∧
    (¬ ml > maxModelLeft g →
      (updatedTask g t).left = some (min (max ml 0) g.width) ∧
      (updatedTask g t).width = some Num.nan ∧
      (updatedTask g t).truncatedLeft = decide (ml < 0) ∧
      (updatedTask g t).truncatedRight = false) := by
  unfold updatedTask
  rw [h]
  constructor
  · intro hoff
    simp only [resolve, if_pos (Or.inr hoff), and_self]
  · intro hon
    have hcond : ¬ (Num.lt (Num.add (.num ml) Num.nan) (.num 0) = true ∨
        ml > maxModelLeft g) := by
      simp [Num.add, Num.lt, hon]
    simp only [resolve, if_neg hcond]
    unfold flipWidth truncate
    by_cases hml : ml < 0 <;> simp [hml, Num.add, Num.gt, Num.lt]

theorem updatedTask_undefined (g : Gantt) (t : Task)
    (h : (localModel g t).1 = none ∨ (localModel g t).2 = none) :
    (updatedTask g t).left = none ∧ (updatedTask g t).width = none ∧
    (updatedTask g t).truncatedLeft = t.truncatedLeft ∧
    (updatedTask g t).truncatedRight = t.truncatedRight := by
  unfold updatedTask
  rcases h1 : (localModel g t).1 with _ | ml <;> rcases h2 : (localModel g t).2 with _ | mw
  · exact ⟨rfl, rfl, rfl, rfl⟩
  · exact ⟨rfl, rfl, rfl, rfl⟩
  · exact ⟨rfl, rfl, rfl, rfl⟩
  · rw [h1, h2] at h
    simp at h

theorem updatedTask_stored (g : Gantt) (t : Task) :
    (updatedTask g t).modelLeft = (storedModel g t).1 ∧
    (updatedTask g t).modelWidth = (storedModel g t).2 ∧
    (updatedTask g t).model = t.model := by
  unfold updatedTask resolve
  split
  · split <;> exact ⟨rfl, rfl, rfl⟩
  · exact ⟨rfl, rfl, rfl⟩

/-! ### The two stages of the clipping -/

theorem truncate_num (W ml mw : Int) :
    truncate W ml (.num mw) =
      { left := min (max ml 0) W
        width := .num (if ml < 0 then (if mw + ml > W then W else mw + ml)
                       else if mw + ml > W then W - ml else mw)
        truncatedLeft := decide (ml < 0)
        truncatedRight := decide (mw + ml > W) } := by
  unfold truncate
  simp only [Num.add, Num.gt_num]
  split_ifs <;> simp_all

theorem truncate_left (W ml : Int) (mw : Num) :
    (truncate W ml mw).left = min (max ml 0) W := by
  unfold truncate
  dsimp only
  split_ifs <;> rfl

theorem truncate_truncatedLeft (W ml : Int) (mw : Num) :
    ((truncate W ml mw).truncatedLeft = true ↔ ml < 0) := by
  unfold truncate
  dsimp only
  split_ifs <;> simp_all

theorem truncate_truncatedRight (W ml mw : Int) :
    ((truncate W ml (.num mw)).truncatedRight = true ↔ ml + mw > W) := by
  rw [truncate_num]
  simp only [decide_eq_true_eq]
  omega

theorem flipWidth_flags (v : Geometry) :
    (flipWidth v).truncatedLeft = v.truncatedLeft ∧
    (flipWidth v).truncatedRight = v.truncatedRight := by
  unfold flipWidth
  split
  · split_ifs <;> exact ⟨rfl, rfl⟩
  · exact ⟨rfl, rfl⟩

theorem flipWidth_of_neg (v : Geometry) (w : Int) (hw : v.width = .num w) (h : w < 0) :
    (flipWidth v).left = v.left + w ∧ (flipWidth v).width = .num (-w) := by
  unfold flipWidth
  rw [hw]
  simp only [if_pos h, and_self]

theorem flipWidth_of_nonneg (v : Geometry) (h : Num.nonneg v.width) : flipWidth v = v := by
  unfold flipWidth
  rcases hw : v.width with _ | w
  · rfl
  · rw [hw] at h
    have h0 : ¬ w < 0 := by
      simp only [Num.nonneg] at h
      omega
    simp only [if_neg h0]

/-- The numbers that the clipping and the flip make of the numbers `ml` and `mw`. -/
theorem flipWidth_truncate_num (W ml mw : Int) :
    ∃ l w, (flipWidth (truncate W ml (.num mw))).left = l ∧
      (flipWidth (truncate W ml (.num mw))).width = .num w ∧
      0 ≤ w ∧ l ≤ min (max ml 0) W ∧ l + w ≤ W ∧
      (0 ≤ W → ml ≤ W → 0 ≤ ml + mw → 0 ≤ l) := by
  rw [truncate_num]
  unfold flipWidth
  dsimp only
  split_ifs <;> refine ⟨_, _, rfl, rfl, ?_, ?_, ?_, ?_⟩ <;> dsimp only <;> omega

/-- Every `modelLeft`, `modelWidth`, viewport width and right bound of the last column is met
by some chart and task. -/
theorem localModel_realisable (ml mw W M : Int) :
    ∃ g t, localModel g t = (some ml, some (.num mw)) ∧ g.width = W ∧ maxModelLeft g = M := by
  refine ⟨linearGantt 0 W { date := 0, endDate := 0, left := M, width := 0 } false,
    exampleTask ml (ml + mw) true, ?_, rfl, ?_⟩
  · simp [localModel, storedModel, linearGantt, exampleTask, Task.new, positionOf,
      Num.ofOption, Num.sub]
  · simp [maxModelLeft, linearGantt]

end GanttTask

namespace GanttTask

/-! ### Claims about the clipping -/

/-- C1, counterexample: on a chart of width `1000` whose last column ends at pixel `5000`, a
task with `modelLeft = 3000` and `modelWidth = 100` gets `left = -1000` and `width = 2000`:
both are defined and `left` is negative. And on the chart of width `1000` a task whose `to`
is unset gets `left = 100` and the width `NaN`, which is defined and not `≥ 0`. So the claim
does not hold for every input. -/
theorem truncation_consistency_counterexample :
    (localModel chartWide (exampleTask 3000 3100 false) = (some 3000, some (.num 100)) ∧
     chartWide.width = 1000 ∧ maxModelLeft chartWide = 5000 ∧
     (updatePosAndSize chartWide (exampleTask 3000 3100 false)).1.left = some (-1000) ∧
     (updatePosAndSize chartWide (exampleTask 3000 3100 false)).1.width = some (.num 2000)) ∧
    (localModel chart1000 (openTask 100) = (some 100, some Num.nan) ∧
     (updatePosAndSize chart1000 (openTask 100)).1.left = some 100 ∧
     (updatePosAndSize chart1000 (openTask 100)).1.width = some Num.nan) ∧
    ¬ ∀ (g : Gantt) (t : Task) (l : Int) (w : Num),
        (updatePosAndSize g t).1.left = some l → (updatePosAndSize g t).1.width = some w →
        0 ≤ l ∧ l ≤ g.width ∧ Num.nonneg w := by
  refine ⟨by decide, by decide, fun h => ?_⟩
  have h1 := h chartWide (exampleTask 3000 3100 false) (-1000) (.num 2000) (by decide)
    (by decide)
  omega

/-- C1, amended: for a `modelLeft` and a `modelWidth` that are numbers (`modelWidth` is not
`NaN`, which it is when `model.to` is unset), when the viewport width is not negative and
`modelLeft` does not exceed it (as is the case when the right bound of the last column does
not exceed it), and `updatePosAndSize` leaves `left` and `width` defined, then
`0 ≤ left ≤ viewport width` and `width` is a number `≥ 0`. The bounds
`left ≤ viewport width` and `0 ≤ width` need neither assumption on the viewport width. -/
theorem updatePosAndSize_truncation_consistency (g : Gantt) (t : Task) (ml mw l : Int)
    (w : Num)
    (hlocal : localModel g t = (some ml, some (.num mw)))
    (hl : (updatePosAndSize g t).1.left = some l)
    (hw : (updatePosAndSize g t).1.width = some w) :
    (l ≤ g.width ∧ Num.nonneg w) ∧
    (0 ≤ g.width → (ml ≤ g.width ∨ maxModelLeft g ≤ g.width) → 0 ≤ l) := by
  rw [updatePosAndSize_fst] at hl hw
  by_cases hoff : ml + mw < 0 ∨ ml > maxModelLeft g
  · rw [(updatedTask_offScreen g t ml mw hlocal hoff).1] at hl
    exact absurd hl (by simp)
  · obtain ⟨h1, h2, _, _⟩ := updatedTask_onScreen g t ml mw hlocal hoff
    obtain ⟨l0, w0, e1, e2, hnn, hle, _, hpos⟩ := flipWidth_truncate_num g.width ml mw
    rw [h1, e1] at hl
    rw [h2, e2] at hw
    have el : l0 = l := Option.some.inj hl
    have ew : Num.num w0 = w := Option.some.inj hw
    subst el
    subst ew
    refine ⟨⟨by omega, hnn⟩, fun hW hml => ?_⟩
    exact hpos hW (by omega) (by omega)

/-- C1, witness: on the chart of width `1000`, `modelLeft = 900` and `modelWidth = 200` give
`left = 900` and `width = 100`. -/
theorem updatePosAndSize_truncation_consistency_witness :
    localModel chart1000 (exampleTask 900 1100 false) = (some 900, some (.num 200)) ∧
    ((900 : Int) ≤ chart1000.width ∧ Num.nonneg (.num 100)) ∧
    (0 ≤ chart1000.width →
      ((900 : Int) ≤ chart1000.width ∨ maxModelLeft chart1000 ≤ chart1000.width) →
      (0 : Int) ≤ 900) :=
  ⟨by decide,
   updatePosAndSize_truncation_consistency chart1000 (exampleTask 900 1100 false) 900 200 900
     (.num 100) (by decide) (by decide) (by decide)⟩

/-- C2: for defined `modelLeft` and `modelWidth` that are not off-screen, the view fields that
`updatePosAndSize` stores are the width-flip of the geometry `v` with
`v.left = clamp(modelLeft, 0, viewport width)` and, case by case: (a) `modelLeft < 0` and
`modelLeft + modelWidth > viewport width`: width is the viewport width, both flags set;
(b) `modelLeft < 0` otherwise: width is `modelWidth + modelLeft`, only the left flag set;
(c) `modelLeft ≥ 0` and `modelLeft + modelWidth > viewport width`: width is
`viewport width - modelLeft`, only the right flag set; (d) otherwise width is `modelWidth`
and no flag is set. -/
theorem updatePosAndSize_truncation_policy (g : Gantt) (t : Task) (ml mw : Int)
    (hlocal : localModel g t = (some ml, some (.num mw)))
    (hon : ¬ (ml + mw < 0 ∨ ml > maxModelLeft g)) :
    ((updatePosAndSize g t).1.left = some (flipWidth (truncate g.width ml (.num mw))).left ∧
     (updatePosAndSize g t).1.width = some (flipWidth (truncate g.width ml (.num mw))).width ∧
     (updatePosAndSize g t).1.truncatedLeft = (truncate g.width ml (.num mw)).truncatedLeft ∧
     (updatePosAndSize g t).1.truncatedRight
       = (truncate g.width ml (.num mw)).truncatedRight) ∧
    (Num.nonneg (truncate g.width ml (.num mw)).width →
      (updatePosAndSize g t).1.left = some (min (max ml 0) g.width) ∧
      (updatePosAndSize g t).1.width = some (truncate g.width ml (.num mw)).width) ∧
    ((truncate g.width ml (.num mw)).left = min (max ml 0) g.width ∧
     (0 ≤ g.width → (truncate g.width ml (.num mw)).left = clamp ml 0 g.width)) ∧
    (ml < 0 → ml + mw > g.width →
      (truncate g.width ml (.num mw)).width = .num g.width ∧
      (truncate g.width ml (.num mw)).truncatedLeft = true ∧
      (truncate g.width ml (.num mw)).truncatedRight = true) ∧
    (ml < 0 → ¬ (ml + mw > g.width) →
      (truncate g.width ml (.num mw)).width = .num (mw + ml) ∧
      (truncate g.width ml (.num mw)).truncatedLeft = true ∧
      (truncate g.width ml (.num mw)).truncatedRight = false) ∧
    (0 ≤ ml → ml + mw > g.width →
      (truncate g.width ml (.num mw)).width = .num (g.width - ml) ∧
      (truncate g.width ml (.num mw)).truncatedLeft = false ∧
      (truncate g.width ml (.num mw)).truncatedRight = true) ∧
    (0 ≤ ml → ¬ (ml + mw > g.width) →
      (truncate g.width ml (.num mw)).width = .num mw ∧
      (truncate g.width ml (.num mw)).truncatedLeft = false ∧
      (truncate g.width ml (.num mw)).truncatedRight = false) := by
  refine ⟨?_, fun hnn => ?_, ⟨truncate_left _ _ _, fun hW => ?_⟩, ?_, ?_, ?_, ?_⟩
  · rw [updatePosAndSize_fst]
    obtain ⟨h1, h2, h3, h4⟩ := updatedTask_onScreen g t ml mw hlocal hon
    obtain ⟨f1, f2⟩ := flipWidth_flags (truncate g.width ml (.num mw))
    exact ⟨h1, h2, h3.trans f1, h4.trans f2⟩
  · rw [updatePosAndSize_fst]
    obtain ⟨h1, h2, _, _⟩ := updatedTask_onScreen g t ml mw hlocal hon
    rw [h1, h2, flipWidth_of_nonneg _ hnn, truncate_left]
    exact ⟨rfl, rfl⟩
  · rw [truncate_left]
    unfold clamp
    split_ifs <;> omega
  · intro h1 h2
    have h2' : mw + ml > g.width := by omega
    rw [truncate_num]
    simp [h1, h2']
  · intro h1 h2
    have h2' : ¬ (mw + ml > g.width) := by omega
    rw [truncate_num]
    simp only [if_pos h1, if_neg h2', decide_eq_true_eq, decide_eq_false_iff_not]
    exact ⟨trivial, h1, h2'⟩
  · intro h1 h2
    have h1' : ¬ (ml < 0) := by omega
    have h2' : mw + ml > g.width := by omega
    rw [truncate_num]
    simp only [if_neg h1', if_pos h2', decide_eq_true_eq, decide_eq_false_iff_not]
    exact ⟨trivial, h1', h2'⟩
  · intro h1 h2
    have h1' : ¬ (ml < 0) := by omega
    have h2' : ¬ (mw + ml > g.width) := by omega
    rw [truncate_num]
    simp only [if_neg h1', if_neg h2', decide_eq_false_iff_not]
    exact ⟨trivial, h1', h2'⟩

/-- C2, witness: viewport width `1000`, `modelLeft = -50`, `modelWidth = 200` is case (b) and
gives `left = 0`, `width = 150`, `truncatedLeft = true`, `truncatedRight = false`. -/
theorem updatePosAndSize_truncation_policy_witness :
    (localModel chart1000 (exampleTask (-50) 150 false) = (some (-50), some (.num 200)) ∧
     chart1000.width = 1000 ∧
     (updatePosAndSize chart1000 (exampleTask (-50) 150 false)).1.left = some 0 ∧
     (updatePosAndSize chart1000 (exampleTask (-50) 150 false)).1.width = some (.num 150) ∧
     (updatePosAndSize chart1000 (exampleTask (-50) 150 false)).1.truncatedLeft = true ∧
     (updatePosAndSize chart1000 (exampleTask (-50) 150 false)).1.truncatedRight = false) ∧
    ((truncate chart1000.width (-50) (.num 200)).width = .num (200 + -50) ∧
     (truncate chart1000.width (-50) (.num 200)).truncatedLeft = true ∧
     (truncate chart1000.width (-50) (.num 200)).truncatedRight = false) :=
  ⟨by decide,
   (updatePosAndSize_truncation_policy chart1000 (exampleTask (-50) 150 false) (-50) 200
     (by decide) (by decide)).2.2.2.2.1 (by decide) (by decide)⟩

/-- C3: for defined `modelLeft` and `modelWidth`, `updatePosAndSize` leaves `left` and `width`
undefined if and only if `modelLeft + modelWidth < 0` or `modelLeft > maxModelLeft`, where
`maxModelLeft` is `lastColumn.left + lastColumn.width`, and `0` when there is no last
column. -/
theorem updatePosAndSize_offScreen_iff (g : Gantt) (t : Task) (ml mw : Int)
    (hlocal : localModel g t = (some ml, some (.num mw))) :
    (((updatePosAndSize g t).1.left = none ∧ (updatePosAndSize g t).1.width = none) ↔
      (ml + mw < 0 ∨ ml > maxModelLeft g)) ∧
    (g.getLastColumn = none → maxModelLeft g = 0) ∧
    (∀ c, g.getLastColumn = some c → maxModelLeft g = c.left + c.width) := by
  refine ⟨?_, fun h => ?_, fun c h => ?_⟩
  · rw [updatePosAndSize_fst]
    constructor
    · intro h
      by_contra hon
      rw [(updatedTask_onScreen g t ml mw hlocal hon).1] at h
      exact absurd h.1 (by simp)
    · intro hoff
      obtain ⟨h1, h2, _, _⟩ := updatedTask_offScreen g t ml mw hlocal hoff
      exact ⟨h1, h2⟩
  · simp only [maxModelLeft, h]
  · simp only [maxModelLeft, h]

/-- C3, witness: `modelLeft = 1200`, `modelWidth = 50`, viewport width `1000` and
`maxModelLeft = 1000` give `left` and `width` undefined (the task is being dragged, so its
model geometry is computed although it starts after the last column). -/
theorem updatePosAndSize_offScreen_iff_witness :
    (localModel chart1000 (exampleTask 1200 1250 true) = (some 1200, some (.num 50)) ∧
     chart1000.width = 1000 ∧ maxModelLeft chart1000 = 1000) ∧
    (updatePosAndSize chart1000 (exampleTask 1200 1250 true)).1.left = none ∧
    (updatePosAndSize chart1000 (exampleTask 1200 1250 true)).1.width = none :=
  ⟨by decide,
   (updatePosAndSize_offScreen_iff chart1000 (exampleTask 1200 1250 true) 1200 50
     (by decide)).1.mpr (Or.inr (by decide))⟩

end GanttTask

namespace GanttTask

theorem storedModel_width_num (g : Gantt) (t : Task) (d : Int) (hto : t.model.to_ = some d) :
    (storedModel g t).2 ≠ some Num.nan := by
  unfold storedModel
  rw [hto]
  split <;> simp [positionOf, Num.ofOption, Num.sub]

theorem localModel_width_num (g : Gantt) (t : Task) (h : g.daily = true ∨ t.model.to_ ≠ none) :
    (localModel g t).2 ≠ some Num.nan := by
  unfold localModel
  by_cases hd : g.daily = true
  · simp [hd]
  · rw [if_neg hd]
    rcases h with h | h
    · exact absurd h hd
    · rcases hto : t.model.to_ with _ | d
      · exact absurd hto h
      · exact storedModel_width_num g t d hto

/-- C4, counterexample: a task whose `to` is unset, on the chart of width `1000`: line 71
gives `modelWidth = NaN`, the tests of lines 85-86 let it through, and `width` is stored as
`NaN`, which is defined and not `≥ 0`. -/
theorem width_nonneg_counterexample :
    ((openTask 100).model.to_ = none ∧
     localModel chart1000 (openTask 100) = (some 100, some Num.nan) ∧
     (updatePosAndSize chart1000 (openTask 100)).1.width = some Num.nan) ∧
    ¬ ∀ (g : Gantt) (t : Task) (w : Num),
        (updatePosAndSize g t).1.width = some w → Num.nonneg w := by
  refine ⟨by decide, fun h => ?_⟩
  exact h chart1000 (openTask 100) Num.nan (by decide)

theorem updatedTask_width (g : Gantt) (t : Task) (w : Num)
    (hw : (updatedTask g t).width = some w) :
    ((localModel g t).2 ≠ some Num.nan → Num.nonneg w) ∧
    ((localModel g t).2 = some Num.nan → w = Num.nan) := by
  rcases h1 : (localModel g t).1 with _ | ml
  · rw [(updatedTask_undefined g t (Or.inl h1)).2.1] at hw
    exact absurd hw (by simp)
  rcases h2 : (localModel g t).2 with _ | mw
  · rw [(updatedTask_undefined g t (Or.inr h2)).2.1] at hw
    exact absurd hw (by simp)
  rcases mw with _ | mw
  · have hlocal : localModel g t = (some ml, some Num.nan) := Prod.ext h1 h2
    obtain ⟨hoffc, honc⟩ := updatedTask_nan g t ml hlocal
    refine ⟨fun hne => absurd rfl hne, fun _ => ?_⟩
    by_cases hoff : ml > maxModelLeft g
    · rw [(hoffc hoff).2.1] at hw
      exact absurd hw (by simp)
    · rw [(honc hoff).2.1] at hw
      exact (Option.some.inj hw).symm
  · have hlocal : localModel g t = (some ml, some (.num mw)) := Prod.ext h1 h2
    refine ⟨fun _ => ?_, fun hnan => absurd hnan (by simp)⟩
    by_cases hoff : ml + mw < 0 ∨ ml > maxModelLeft g
    · rw [(updatedTask_offScreen g t ml mw hlocal hoff).2.1] at hw
      exact absurd hw (by simp)
    · rw [(updatedTask_onScreen g t ml mw hlocal hoff).2.1] at hw
      obtain ⟨l0, w0, _, e2, hnn, _, _, _⟩ := flipWidth_truncate_num g.width ml mw
      rw [e2] at hw
      have ew : Num.num w0 = w := Option.some.inj hw
      subst ew
      exact hnn

/-- C4, amended: whenever `updatePosAndSize` leaves `width` defined and the `modelWidth` it
reads is a number, `width` is a number `≥ 0` (inverted intervals and a `modelLeft` beyond the
viewport width included); that is so for every task whose `to` is set, and in `daily` mode.
When `modelWidth` is `NaN`, as for a task whose `to` is unset, `width` is `NaN`. -/
theorem updatePosAndSize_width_nonneg (g : Gantt) (t : Task) (w : Num)
    (hw : (updatePosAndSize g t).1.width = some w) :
    ((localModel g t).2 ≠ some Num.nan → Num.nonneg w) ∧
    (g.daily = true ∨ t.model.to_ ≠ none → Num.nonneg w) ∧
    ((localModel g t).2 = some Num.nan → w = Num.nan) := by
  rw [updatePosAndSize_fst] at hw
  obtain ⟨h1, h2⟩ := updatedTask_width g t w hw
  exact ⟨h1, fun h => h1 (localModel_width_num g t h), h2⟩

/-- C4, witness: an inverted interval (`modelWidth = -100`) that starts beyond the viewport
width (`modelLeft = 3000`, viewport width `1000`) ends with `width = 2000`. -/
theorem updatePosAndSize_width_nonneg_witness :
    (localModel chartWide (exampleTask 3000 2900 false) = (some 3000, some (.num (-100))) ∧
     (updatePosAndSize chartWide (exampleTask 3000 2900 false)).1.width = some (.num 2000)) ∧
    Num.nonneg (.num 2000) :=
  ⟨by decide,
   (updatePosAndSize_width_nonneg chartWide (exampleTask 3000 2900 false) (.num 2000)
     (by decide)).1 (by decide)⟩

/-- C5, counterexample: with `modelLeft = 500` and `modelWidth = -100` on the chart of width
`1000` the geometry before the flip is `left = 500`, `width = -100`, the stored one is
`left = 400`, `width = 100`, and `400 + 100` is not `500 + -100`. -/
theorem flip_conservation_counterexample :
    localModel chart1000 (exampleTask 500 400 false) = (some 500, some (.num (-100))) ∧
    (truncate chart1000.width 500 (.num (-100))).left = 500 ∧
    (truncate chart1000.width 500 (.num (-100))).width = .num (-100) ∧
    (updatePosAndSize chart1000 (exampleTask 500 400 false)).1.left = some 400 ∧
    (updatePosAndSize chart1000 (exampleTask 500 400 false)).1.width = some (.num 100) ∧
    (400 : Int) + 100 ≠ 500 + -100 := by
  decide

/-- C5, amended: whenever the width `width` computed before the flip is negative, the flip
stores `left' = left + width` and `width' = -width`, so that `left' + width' = left`: the
right edge after the flip is the left edge before it (and the new left edge is the former
right edge `left + width`). -/
theorem updatePosAndSize_flip (g : Gantt) (t : Task) (ml mw width : Int)
    (hlocal : localModel g t = (some ml, some (.num mw)))
    (hon : ¬ (ml + mw < 0 ∨ ml > maxModelLeft g))
    (hwidth : (truncate g.width ml (.num mw)).width = .num width)
    (hneg : width < 0) :
    ∃ l' w', (updatePosAndSize g t).1.left = some l' ∧
      (updatePosAndSize g t).1.width = some (.num w') ∧
      l' = (truncate g.width ml (.num mw)).left + width ∧
      w' = -width ∧
      l' + w' = (truncate g.width ml (.num mw)).left := by
  rw [updatePosAndSize_fst]
  obtain ⟨h1, h2, _, _⟩ := updatedTask_onScreen g t ml mw hlocal hon
  obtain ⟨f1, f2⟩ := flipWidth_of_neg (truncate g.width ml (.num mw)) width hwidth hneg
  rw [f1] at h1
  rw [f2] at h2
  exact ⟨_, _, h1, h2, rfl, rfl, by omega⟩

/-- C5, witness: `modelLeft = 500`, `modelWidth = -100` on the chart of width `1000`. -/
theorem updatePosAndSize_flip_witness :
    (localModel chart1000 (exampleTask 500 400 false) = (some 500, some (.num (-100))) ∧
     (truncate chart1000.width 500 (.num (-100))).width = .num (-100)) ∧
    ∃ l' w', (updatePosAndSize chart1000 (exampleTask 500 400 false)).1.left = some l' ∧
      (updatePosAndSize chart1000 (exampleTask 500 400 false)).1.width = some (.num w') ∧
      l' = (truncate chart1000.width 500 (.num (-100))).left + -100 ∧
      w' = - -100 ∧
      l' + w' = (truncate chart1000.width 500 (.num (-100))).left :=
  ⟨by decide,
   updatePosAndSize_flip chart1000 (exampleTask 500 400 false) 500 (-100) (-100)
     (by decide) (by decide) (by decide) (by decide)⟩

end GanttTask

namespace GanttTask

/-- C6, counterexample: in `daily` mode, on the chart whose columns start at noon of day `0`,
the task from 13:00 to 14:00 of day `0` is laid out with `left` and `width` defined; its
unclamped projection stored in `modelLeft` is `60`, which is not negative, and
`truncatedLeft` is true. -/
theorem flags_consistent_counterexample :
    chartDaily.daily = true ∧
    (updatePosAndSize chartDaily (exampleTask 780 840 false)).1.left = some 0 ∧
    (updatePosAndSize chartDaily (exampleTask 780 840 false)).1.width = some (.num 719) ∧
    (updatePosAndSize chartDaily (exampleTask 780 840 false)).1.modelLeft = some 60 ∧
    (updatePosAndSize chartDaily (exampleTask 780 840 false)).1.modelWidth = some (.num 60) ∧
    (updatePosAndSize chartDaily (exampleTask 780 840 false)).1.truncatedLeft = true ∧
    ¬ ((60 : Int) < 0) := by
  decide

/-- C6, amended: after an `updatePosAndSize` call that leaves `left` and `width` defined,
`truncatedLeft` is true if and only if `modelLeft < 0`, and `truncatedRight` is true if and
only if `modelLeft + modelWidth` exceeds the viewport width (a comparison that is false for a
`modelWidth` that is `NaN`), where `modelLeft` and `modelWidth` are the values that the
clipping reads: the unclamped projection stored on the task when the `daily` mode is off, and
the projection of the interval widened to whole days when it is on. -/
theorem updatePosAndSize_flags_consistent (g : Gantt) (t : Task) (ml l : Int) (mw w : Num)
    (hlocal : localModel g t = (some ml, some mw))
    (hl : (updatePosAndSize g t).1.left = some l)
    (_hw : (updatePosAndSize g t).1.width = some w) :
    ((updatePosAndSize g t).1.truncatedLeft = true ↔ ml < 0) ∧
    ((updatePosAndSize g t).1.truncatedRight = true ↔
      Num.gt (Num.add (.num ml) mw) (.num g.width) = true) ∧
    (∀ n, mw = .num n →
      ((updatePosAndSize g t).1.truncatedRight = true ↔ ml + n > g.width)) ∧
    (g.daily = false → (updatePosAndSize g t).1.modelLeft = some ml ∧
      (updatePosAndSize g t).1.modelWidth = some mw) ∧
    (g.daily = true →
      ml = g.getPositionByDate (g.startOf TimeUnit.day t.model.from_) ∧
      mw = .num (g.getPositionByDate (g.endOf TimeUnit.day (t.model.to_.getD g.now))
              - g.getPositionByDate (g.startOf TimeUnit.day t.model.from_))) := by
  rw [updatePosAndSize_fst] at hl ⊢
  have hflags : ((updatedTask g t).truncatedLeft = true ↔ ml < 0) ∧
      ((updatedTask g t).truncatedRight = true ↔
        Num.gt (Num.add (.num ml) mw) (.num g.width) = true) := by
    rcases mw with _ | mw
    · obtain ⟨hoffc, honc⟩ := updatedTask_nan g t ml hlocal
      by_cases hoff : ml > maxModelLeft g
      · rw [(hoffc hoff).1] at hl
        exact absurd hl (by simp)
      · obtain ⟨_, _, h3, h4⟩ := honc hoff
        rw [h3, h4]
        simp [Num.add, Num.gt, Num.lt]
    · by_cases hoff : ml + mw < 0 ∨ ml > maxModelLeft g
      · rw [(updatedTask_offScreen g t ml mw hlocal hoff).1] at hl
        exact absurd hl (by simp)
      · obtain ⟨_, _, h3, h4⟩ := updatedTask_onScreen g t ml mw hlocal hoff
        obtain ⟨f1, f2⟩ := flipWidth_flags (truncate g.width ml (.num mw))
        constructor
        · rw [h3, f1]
          exact truncate_truncatedLeft _ _ _
        · rw [h4, f2, truncate_truncatedRight]
          simp only [Num.add, Num.gt_num]
  refine ⟨hflags.1, hflags.2, fun n hn => ?_, fun hd => ?_, fun hd => ?_⟩
  · rw [hflags.2, hn]
    simp only [Num.add, Num.gt_num]
  · have hs : storedModel g t = (some ml, some mw) := by
      rw [← hlocal]
      simp [localModel, hd]
    obtain ⟨s1, s2, _⟩ := updatedTask_stored g t
    rw [s1, s2, hs]
    exact ⟨rfl, rfl⟩
  · have h := hlocal
    unfold localModel at h
    rw [if_pos hd] at h
    have h1 := congrArg Prod.fst h
    have h2 := congrArg Prod.snd h
    exact ⟨(Option.some.inj h1).symm, (Option.some.inj h2).symm⟩

/-- C6, witness: `modelLeft = -50` and `modelWidth = 1150` on the chart of width `1000`: the
task sticks out on both sides and both flags are set. -/
theorem updatePosAndSize_flags_consistent_witness :
    localModel chart1000 (exampleTask (-50) 1100 false) = (some (-50), some (.num 1150)) ∧
    (((updatePosAndSize chart1000 (exampleTask (-50) 1100 false)).1.truncatedLeft = true ↔
        (-50 : Int) < 0) ∧
     ((updatePosAndSize chart1000 (exampleTask (-50) 1100 false)).1.truncatedRight = true ↔
        (-50 : Int) + 1150 > chart1000.width)) :=
  ⟨by decide,
   (updatePosAndSize_flags_consistent chart1000 (exampleTask (-50) 1100 false) (-50) 0
     (.num 1150) (.num 1000) (by decide) (by decide) (by decide)).1,
   (updatePosAndSize_flags_consistent chart1000 (exampleTask (-50) 1100 false) (-50) 0
     (.num 1150) (.num 1000) (by decide) (by decide) (by decide)).2.2.1 1150 rfl⟩

/-- C7, counterexample: in `daily` mode, on a chart whose columns start at noon of day `0`, a
task from 01:00 to 02:00 of day `0` is not being moved and is out of range, and yet
`updatePosAndSize` gives it `left = 0` and `width = 719`. -/
theorem outOfRange_daily_counterexample :
    chartDaily.daily = true ∧
    (exampleTask 60 120 false).isMoving = false ∧
    isOutOfRange chartDaily (exampleTask 60 120 false) = true ∧
    (updatePosAndSize chartDaily (exampleTask 60 120 false)).1.left = some 0 ∧
    (updatePosAndSize chartDaily (exampleTask 60 120 false)).1.width = some (.num 719) := by
  decide

/-- C7, amended: for every task that is not being moved and is out of range, `updatePosAndSize`
stores an undefined `modelLeft` and `modelWidth`, and, when the `daily` mode is off, an
undefined `left` and `width`. -/
theorem updatePosAndSize_outOfRange (g : Gantt) (t : Task)
    (hmove : t.isMoving = false) (hout : isOutOfRange g t = true) :
    ((updatePosAndSize g t).1.modelLeft = none ∧ (updatePosAndSize g t).1.modelWidth = none) ∧
    (g.daily = false →
      (updatePosAndSize g t).1.left = none ∧ (updatePosAndSize g t).1.width = none) := by
  rw [updatePosAndSize_fst]
  have hs : storedModel g t = (none, none) := by
    simp [storedModel, hmove, hout]
  obtain ⟨s1, s2, _⟩ := updatedTask_stored g t
  refine ⟨⟨by rw [s1, hs], by rw [s2, hs]⟩, fun hd => ?_⟩
  have hlocal : localModel g t = (none, none) := by
    simp [localModel, hd, hs]
  obtain ⟨h1, h2, _, _⟩ := updatedTask_undefined g t (Or.inl (by rw [hlocal]))
  exact ⟨h1, h2⟩

/-- C7, witness: on the chart of width `1000`, whose columns start at date `0`, a task that
ends at date `-100` is out of range. -/
theorem updatePosAndSize_outOfRange_witness :
    (isOutOfRange chart1000 (exampleTask (-200) (-100) false) = true ∧
     chart1000.daily = false) ∧
    (updatePosAndSize chart1000 (exampleTask (-200) (-100) false)).1.left = none ∧
    (updatePosAndSize chart1000 (exampleTask (-200) (-100) false)).1.width = none :=
  ⟨by decide,
   (updatePosAndSize_outOfRange chart1000 (exampleTask (-200) (-100) false) rfl
     (by decide)).2 (by decide)⟩

/-- C8, counterexample: a task that sticks out on both sides of the chart of width `1000` has
both flags set; when the columns then move away from it, `modelLeft` and `modelWidth` are
undefined in the next `updatePosAndSize`, `left` and `width` become undefined, and both flags
are still set. -/
theorem undefined_inputs_flags_counterexample :
    (updatePosAndSize chart1000 (exampleTask (-50) 1100 false)).1.truncatedLeft = true ∧
    (updatePosAndSize chart1000 (exampleTask (-50) 1100 false)).1.truncatedRight = true ∧
    localModel chartLater (updatePosAndSize chart1000 (exampleTask (-50) 1100 false)).1
      = (none, none) ∧
    (updatePosAndSize chartLater
      (updatePosAndSize chart1000 (exampleTask (-50) 1100 false)).1).1.left = none ∧
    (updatePosAndSize chartLater
      (updatePosAndSize chart1000 (exampleTask (-50) 1100 false)).1).1.width = none ∧
    (updatePosAndSize chartLater
      (updatePosAndSize chart1000 (exampleTask (-50) 1100 false)).1).1.truncatedLeft = true ∧
    (updatePosAndSize chartLater
      (updatePosAndSize chart1000 (exampleTask (-50) 1100 false)).1).1.truncatedRight = true := by
  decide

/-- C8, amended: if `modelLeft` or `modelWidth` is undefined in `updatePosAndSize`, then
afterwards `left` and `width` are undefined and `truncatedLeft` and `truncatedRight` have the
values they had before the call (so they are false when they were false before, as on a
newly constructed task). -/
theorem updatePosAndSize_undefined_inputs (g : Gantt) (t : Task)
    (h : (localModel g t).1 = none ∨ (localModel g t).2 = none) :
    (updatePosAndSize g t).1.left = none ∧ (updatePosAndSize g t).1.width = none ∧
    (updatePosAndSize g t).1.truncatedLeft = t.truncatedLeft ∧
    (updatePosAndSize g t).1.truncatedRight = t.truncatedRight := by
  rw [updatePosAndSize_fst]
  exact updatedTask_undefined g t h

/-- C8, witness: a newly constructed task that is out of range keeps both flags false. -/
theorem updatePosAndSize_undefined_inputs_witness :
    (localModel chart1000 (Task.new { from_ := -200, to_ := some (-100) })).1 = none ∧
    ((updatePosAndSize chart1000 (Task.new { from_ := -200, to_ := some (-100) })).1.left
       = none ∧
     (updatePosAndSize chart1000 (Task.new { from_ := -200, to_ := some (-100) })).1.width
       = none ∧
     (updatePosAndSize chart1000
       (Task.new { from_ := -200, to_ := some (-100) })).1.truncatedLeft = false ∧
     (updatePosAndSize chart1000
       (Task.new { from_ := -200, to_ := some (-100) })).1.truncatedRight = false) :=
  ⟨by decide,
   updatePosAndSize_undefined_inputs chart1000 (Task.new { from_ := -200, to_ := some (-100) })
     (Or.inl (by decide))⟩

/-- C9: `isOutOfRange()` is true if and only if there is no first column, or there is no last
column, or `model.to` is before the first column's `date`, or `model.from` is after the last
column's `endDate`. An unset `model.to` is before no date. -/
theorem isOutOfRange_iff (g : Gantt) (t : Task) :
    isOutOfRange g t = true ↔
      (g.getFirstColumn = none ∨ g.getLastColumn = none ∨
       (∃ firstColumn d, g.getFirstColumn = some firstColumn ∧ t.model.to_ = some d ∧
          d < firstColumn.date) ∨
       (∃ lastColumn, g.getLastColumn = some lastColumn ∧ t.model.from_ > lastColumn.endDate)) := by
  unfold isOutOfRange
  rcases hf : g.getFirstColumn with _ | fc
  · simp
  · rcases hl : g.getLastColumn with _ | lc
    · simp
    · rcases hto : t.model.to_ with _ | d
      · simp [Num.ofOption, Num.lt]
      · by_cases h1 : d < fc.date
        · simp [Num.ofOption, Num.lt, h1]
        · simp [Num.ofOption, Num.lt, h1]

/-- C10: for a task whose `modelWidth` is defined, on a chart where
`getPositionByDate (getDateByPosition p false) = p` for every `p`, and with no registered
callback that throws on the task's model, `moveTo(x, false)` returns and the new interval
satisfies `getPositionByDate model.to - getPositionByDate model.from = modelWidth`, the
`modelWidth` from before the call, whatever `x` is. -/
theorem moveTo_preserves_width (r : Registry) (g : Gantt) (t : Task) (x mw : Int)
    (hmw : t.modelWidth = some (.num mw))
    (hround : ∀ p, g.getPositionByDate (g.getDateByPosition (some p) false) = p)
    (hhook : ∀ fn, r.moveToCallbackFn = some fn →
      fn.throws r.moveToCallbackFnThis t.model = false) :
    (moveTo r g t x false).thrown = false ∧
    ∃ newTo, (moveTo r g t x false).task.model.to_ = some newTo ∧
      g.getPositionByDate newTo
        - g.getPositionByDate (moveTo r g t x false).task.model.from_ = mw := by
  have key : ∃ newTo, (originalMoveTo g t x false).1.model.to_ = some newTo ∧
      g.getPositionByDate newTo
        - g.getPositionByDate (originalMoveTo g t x false).1.model.from_ = mw := by
    unfold originalMoveTo
    dsimp only
    rw [updatePosAndSize_fst, (updatedTask_stored g _).2.2, hmw]
    refine ⟨_, rfl, ?_⟩
    simp only [Bool.false_eq_true, if_false]
    rw [hround]
    omega
  unfold moveTo
  rcases hfn : r.moveToCallbackFn with _ | fn
  · exact ⟨rfl, key⟩
  · have hno := hhook fn hfn
    simp only [hno, Bool.false_eq_true, if_false]
    exact ⟨trivial, key⟩

/-- C10, witness: on the chart of width `1000`, with a callback registered that does not
throw, a task of `modelWidth = 200` moved to `x = 400` gets the interval from `400` to
`600`. -/
theorem moveTo_preserves_width_witness :
    ((updatePosAndSize chart1000 (exampleTask 100 300 false)).1.modelWidth = some (.num 200) ∧
     (moveTo exampleRegistry chart1000
       (updatePosAndSize chart1000 (exampleTask 100 300 false)).1 400 false).task.model
       = { from_ := 400, to_ := some 600 }) ∧
    ((moveTo exampleRegistry chart1000
       (updatePosAndSize chart1000 (exampleTask 100 300 false)).1 400 false).thrown = false ∧
     ∃ newTo, (moveTo exampleRegistry chart1000
       (updatePosAndSize chart1000 (exampleTask 100 300 false)).1 400 false).task.model.to_
         = some newTo ∧
       chart1000.getPositionByDate newTo
         - chart1000.getPositionByDate (moveTo exampleRegistry chart1000
         (updatePosAndSize chart1000 (exampleTask 100 300 false)).1 400 false).task.model.from_
         = 200) :=
  ⟨by decide,
   moveTo_preserves_width exampleRegistry chart1000
     (updatePosAndSize chart1000 (exampleTask 100 300 false)).1 400 200 (by decide)
     (fun p => by show p + 0 - 0 = p; omega)
     (fun fn h => by
       have e : fn = { name := 1, throws := fun _ _ => false } := (Option.some.inj h).symm
       rw [e])⟩

end GanttTask

namespace GanttTask

/-! ### The callback of `moveTo` -/

theorem updatePosAndSize_events (g : Gantt) (t : Task) :
    (updatePosAndSize g t).2 = [] ∨
    (updatePosAndSize g t).2 = [Event.viewChange (updatePosAndSize g t).1] := by
  unfold updatePosAndSize
  dsimp only
  split
  · exact Or.inr rfl
  · exact Or.inl rfl

theorem updatePosAndSize_no_callback (g : Gantt) (t : Task) :
    (updatePosAndSize g t).2.filter Event.isCallback = [] := by
  rcases updatePosAndSize_events g t with h | h <;> rw [h] <;> rfl

theorem originalMoveTo_no_callback (g : Gantt) (t : Task) (x : Int) (m : Bool) :
    (originalMoveTo g t x m).2.filter Event.isCallback = [] := by
  unfold originalMoveTo
  dsimp only
  rw [List.filter_cons]
  simp only [Event.isCallback, Bool.false_eq_true, if_false]
  exact updatePosAndSize_no_callback g _

theorem setFrom_no_callback (g : Gantt) (t : Task) (x : Int) (m : Bool) :
    (setFrom g t x m).2.filter Event.isCallback = [] := by
  unfold setFrom
  dsimp only
  rw [List.filter_cons]
  simp only [Event.isCallback, Bool.false_eq_true, if_false]
  exact updatePosAndSize_no_callback g _

theorem setTo_no_callback (g : Gantt) (t : Task) (x : Int) (m : Bool) :
    (setTo g t x m).2.filter Event.isCallback = [] := by
  unfold setTo
  dsimp only
  rw [List.filter_cons]
  simp only [Event.isCallback, Bool.false_eq_true, if_false]
  exact updatePosAndSize_no_callback g _

theorem moveTo_events_registered (r : Registry) (g : Gantt) (t : Task) (x : Int) (m : Bool)
    (fn : Callback) (hreg : r.moveToCallbackFn = some fn) :
    (moveTo r g t x m).events =
      Event.callback fn.name r.moveToCallbackFnThis t.model ::
        (if fn.throws r.moveToCallbackFnThis t.model then [] else (originalMoveTo g t x m).2) := by
  unfold moveTo
  rw [hreg]
  dsimp only
  split <;> rfl

theorem moveTo_events_unregistered (r : Registry) (g : Gantt) (t : Task) (x : Int) (m : Bool)
    (hreg : r.moveToCallbackFn = none) :
    (moveTo r g t x m).events = (originalMoveTo g t x m).2 := by
  unfold moveTo
  rw [hreg]

theorem moveTo_callback_events (r : Registry) (g : Gantt) (t : Task) (x : Int) (m : Bool) :
    (moveTo r g t x m).events.filter Event.isCallback =
      match r.moveToCallbackFn with
      | some fn => [Event.callback fn.name r.moveToCallbackFnThis t.model]
      | none => [] := by
  rcases hreg : r.moveToCallbackFn with _ | fn
  · rw [moveTo_events_unregistered r g t x m hreg]
    exact originalMoveTo_no_callback g t x m
  · rw [moveTo_events_registered r g t x m fn hreg, List.filter_cons]
    simp only [Event.isCallback, if_true]
    split
    · rfl
    · rw [originalMoveTo_no_callback]

theorem applyCalls_concat (r : Registry) (calls : List RegistryCall) (c : RegistryCall) :
    applyCalls r (calls ++ [c]) = RegistryCall.apply (applyCalls r calls) c := by
  unfold applyCalls
  rw [List.foldl_append]
  rfl

/-- C11: when a callback is registered, `moveTo(x, magnetEnabled)` calls it first, with the
registered receiver and with the task's model as it is before the call, and calls it exactly
once: no later event is a callback call. For a task with `model.from = T0`, every callback
call of the `moveTo` therefore sees `from = T0`. -/
theorem moveTo_callback_sees_prior_model (r : Registry) (g : Gantt) (t : Task) (x : Int)
    (m : Bool) (fn : Callback) (T0 : Int)
    (hreg : r.moveToCallbackFn = some fn) (hfrom : t.model.from_ = T0) :
    ∃ rest, (moveTo r g t x m).events =
        Event.callback fn.name r.moveToCallbackFnThis t.model :: rest ∧
      rest.filter Event.isCallback = [] ∧
      (moveTo r g t x m).events.filter Event.isCallback =
        [Event.callback fn.name r.moveToCallbackFnThis t.model] ∧
      (∀ name thisArg model,
        Event.callback name thisArg model ∈ (moveTo r g t x m).events → model.from_ = T0) := by
  have hcb := moveTo_callback_events r g t x m
  rw [hreg] at hcb
  dsimp only at hcb
  refine ⟨_, moveTo_events_registered r g t x m fn hreg, ?_, hcb, ?_⟩
  · split
    · rfl
    · exact originalMoveTo_no_callback g t x m
  · intro name thisArg model hmem
    have h2 : Event.callback name thisArg model ∈
        (moveTo r g t x m).events.filter Event.isCallback :=
      List.mem_filter.mpr ⟨hmem, rfl⟩
    rw [hcb, List.mem_singleton] at h2
    injection h2 with _ _ h3
    rw [h3]
    exact hfrom

/-- C11, witness: a task with `from = 100` is moved to `x = 400` on the chart of width `1000`;
the callback is called with the model from `100` to `300`, and afterwards `from` is `400`. -/
theorem moveTo_callback_sees_prior_model_witness :
    ((moveTo exampleRegistry chart1000 (exampleTask 100 300 false) 400 false).events.head?
        = some (Event.callback 1 (some 7) { from_ := 100, to_ := some 300 }) ∧
     (moveTo exampleRegistry chart1000 (exampleTask 100 300 false) 400 false).task.model.from_
        = 400) ∧
    ∃ rest, (moveTo exampleRegistry chart1000 (exampleTask 100 300 false) 400 false).events =
        Event.callback 1 (some 7) (exampleTask 100 300 false).model :: rest ∧
      rest.filter Event.isCallback = [] ∧
      (moveTo exampleRegistry chart1000 (exampleTask 100 300 false) 400 false).events.filter
          Event.isCallback = [Event.callback 1 (some 7) (exampleTask 100 300 false).model] ∧
      (∀ name thisArg model,
        Event.callback name thisArg model ∈
          (moveTo exampleRegistry chart1000 (exampleTask 100 300 false) 400 false).events →
        model.from_ = 100) :=
  ⟨by decide,
   moveTo_callback_sees_prior_model exampleRegistry chart1000 (exampleTask 100 300 false) 400
     false { name := 1, throws := fun _ _ => false } 100 rfl rfl⟩

/-- C12, counterexample: with a callback registered, `setFrom(400, false)` and
`setTo(400, false)` on a task from `100` to `300` change the interval and call no
callback. -/
theorem hook_ordering_counterexample :
    exampleRegistry.moveToCallbackFn.isSome = true ∧
    (callEndpoint Endpoint.setFrom exampleRegistry chart1000 (exampleTask 100 300 false) 400
      false).task.model = { from_ := 400, to_ := some 300 } ∧
    (callEndpoint Endpoint.setFrom exampleRegistry chart1000 (exampleTask 100 300 false) 400
      false).events.filter Event.isCallback = [] ∧
    (callEndpoint Endpoint.setTo exampleRegistry chart1000 (exampleTask 100 300 false) 400
      false).task.model = { from_ := 100, to_ := some 400 } ∧
    (callEndpoint Endpoint.setTo exampleRegistry chart1000 (exampleTask 100 300 false) 400
      false).events.filter Event.isCallback = [] := by
  decide

/-- C12, amended: within `moveTo`, when a callback is registered it is called in that call
before anything else: the events of the call are the callback call, with the model as it was
before, followed by those of the original `moveTo` (the row update after the interval has
been assigned, and the notification of the geometry recomputation), none of which is a
callback call; and when the callback throws nothing follows and the task is unchanged.
`setFrom` and `setTo` call no callback. -/
theorem moveTo_callback_first (r : Registry) (g : Gantt) (t : Task) (x : Int) (m : Bool)
    (fn : Callback) (hreg : r.moveToCallbackFn = some fn) :
    ((callEndpoint Endpoint.moveTo r g t x m).events =
      Event.callback fn.name r.moveToCallbackFnThis t.model ::
        (if fn.throws r.moveToCallbackFnThis t.model then []
         else Event.setFromTo :: (originalMoveTo g t x m).2.tail)) ∧
    (originalMoveTo g t x m).2.tail.filter Event.isCallback = [] ∧
    (fn.throws r.moveToCallbackFnThis t.model = true →
      (callEndpoint Endpoint.moveTo r g t x m).task = t) ∧
    (fn.throws r.moveToCallbackFnThis t.model = false →
      (callEndpoint Endpoint.moveTo r g t x m).task = (originalMoveTo g t x m).1) ∧
    (callEndpoint Endpoint.setFrom r g t x m).events.filter Event.isCallback = [] ∧
    (callEndpoint Endpoint.setTo r g t x m).events.filter Event.isCallback = [] := by
  have htail : (originalMoveTo g t x m).2 = Event.setFromTo :: (originalMoveTo g t x m).2.tail :=
    rfl
  refine ⟨?_, ?_, ?_, ?_, setFrom_no_callback g t x m, setTo_no_callback g t x m⟩
  · show (moveTo r g t x m).events = _
    rw [moveTo_events_registered r g t x m fn hreg, ← htail]
  · have h := originalMoveTo_no_callback g t x m
    rw [htail, List.filter_cons] at h
    simpa [Event.isCallback] using h
  · intro hthrow
    show (moveTo r g t x m).task = t
    unfold moveTo
    rw [hreg]
    simp only [hthrow, if_true]
  · intro hthrow
    show (moveTo r g t x m).task = _
    unfold moveTo
    rw [hreg]
    simp only [hthrow, Bool.false_eq_true, if_false]

/-- C12, witness: `moveTo(400, false)` with the example callback registered: the callback call,
then the row update, then the notification. -/
theorem moveTo_callback_first_witness :
    (callEndpoint Endpoint.moveTo exampleRegistry chart1000 (exampleTask 100 300 false) 400
      false).events =
      [Event.callback 1 (some 7) { from_ := 100, to_ := some 300 }, Event.setFromTo,
       Event.viewChange (callEndpoint Endpoint.moveTo exampleRegistry chart1000
         (exampleTask 100 300 false) 400 false).task] ∧
    (callEndpoint Endpoint.moveTo exampleRegistry chart1000 (exampleTask 100 300 false) 400
      false).events =
      Event.callback 1 (some 7) (exampleTask 100 300 false).model ::
        (if false = true then []
         else Event.setFromTo ::
           (originalMoveTo chart1000 (exampleTask 100 300 false) 400 false).2.tail) :=
  ⟨by decide,
   (moveTo_callback_first exampleRegistry chart1000 (exampleTask 100 300 false) 400 false
     { name := 1, throws := fun _ _ => false } rfl).1⟩

/-- C13: if the registered callback throws during `moveTo`, the exception reaches the caller of
`moveTo`, the task is as before the call (`model.from`, `model.to`, `modelLeft`, `modelWidth`,
`left`, `width` and both truncation flags), and no `viewChange` notification is raised: the
callback call is the only event. -/
theorem moveTo_callback_throws (r : Registry) (g : Gantt) (t : Task) (x : Int) (m : Bool)
    (fn : Callback) (hreg : r.moveToCallbackFn = some fn)
    (hthrow : fn.throws r.moveToCallbackFnThis t.model = true) :
    (moveTo r g t x m).thrown = true ∧
    (moveTo r g t x m).task = t ∧
    (moveTo r g t x m).events = [Event.callback fn.name r.moveToCallbackFnThis t.model] ∧
    (moveTo r g t x m).events.filter Event.isViewChange = [] := by
  unfold moveTo
  rw [hreg]
  simp only [hthrow, if_true]
  exact ⟨trivial, trivial, trivial, rfl⟩

/-- C13, witness: the throwing example callback and a task that has been laid out. -/
theorem moveTo_callback_throws_witness :
    (moveTo throwingRegistry chart1000
      (updatePosAndSize chart1000 (exampleTask 100 300 false)).1 400 false).thrown = true ∧
    (moveTo throwingRegistry chart1000
      (updatePosAndSize chart1000 (exampleTask 100 300 false)).1 400 false).task
      = (updatePosAndSize chart1000 (exampleTask 100 300 false)).1 ∧
    (moveTo throwingRegistry chart1000
      (updatePosAndSize chart1000 (exampleTask 100 300 false)).1 400 false).events
      = [Event.callback 2 (some 7)
          (updatePosAndSize chart1000 (exampleTask 100 300 false)).1.model] ∧
    (moveTo throwingRegistry chart1000
      (updatePosAndSize chart1000 (exampleTask 100 300 false)).1 400 false).events.filter
        Event.isViewChange = [] :=
  moveTo_callback_throws throwingRegistry chart1000
    (updatePosAndSize chart1000 (exampleTask 100 300 false)).1 400 false
    { name := 2, throws := fun _ _ => true } rfl rfl

/-- C14: after any sequence of `registerMoveToCallBack` and `unregisterCallBack` calls, made
from the registry of the freshly loaded module or, when the sequence is not empty, from any
registry, the callback calls of a following `moveTo` are: the one call of the callback of the
most recent `registerMoveToCallBack`, with its receiver and the task's model, if no
`unregisterCallBack` followed it, and none otherwise. -/
theorem moveTo_last_registration (calls : List RegistryCall) (g : Gantt) (t : Task) (x : Int)
    (m : Bool) :
    ((moveTo (applyCalls Registry.initial calls) g t x m).events.filter Event.isCallback =
      match lastRegistration calls with
      | some (fn, thisArg) => [Event.callback fn.name thisArg t.model]
      | none => []) ∧
    (∀ r0 : Registry, calls ≠ [] →
      (moveTo (applyCalls r0 calls) g t x m).events.filter Event.isCallback =
        match lastRegistration calls with
        | some (fn, thisArg) => [Event.callback fn.name thisArg t.model]
        | none => []) := by
  have hne : ∀ r0 : Registry, calls ≠ [] →
      (moveTo (applyCalls r0 calls) g t x m).events.filter Event.isCallback =
        match lastRegistration calls with
        | some (fn, thisArg) => [Event.callback fn.name thisArg t.model]
        | none => [] := by
    intro r0 hcalls
    rcases List.eq_nil_or_concat calls with h | ⟨pre, c, h⟩
    · exact absurd h hcalls
    · rw [List.concat_eq_append] at h
      subst h
      rw [moveTo_callback_events, applyCalls_concat]
      unfold lastRegistration
      rw [List.getLast?_concat]
      cases c <;> rfl
  refine ⟨?_, hne⟩
  by_cases hcalls : calls = []
  · subst hcalls
    rw [moveTo_callback_events]
    rfl
  · exact hne Registry.initial hcalls

/-- C14, witness: the throwing callback is registered first; then callback `1` is registered,
the registration is removed, and callback `3` is registered with the receiver `8`. The
following `moveTo` calls callback `3` only. -/
theorem moveTo_last_registration_witness :
    (moveTo
      (applyCalls throwingRegistry
        [RegistryCall.register { name := 1, throws := fun _ _ => false } (some 7),
         RegistryCall.unregister,
         RegistryCall.register { name := 3, throws := fun _ _ => false } (some 8)])
      chart1000 (exampleTask 100 300 false) 400 false).events.filter Event.isCallback
      = [Event.callback 3 (some 8) { from_ := 100, to_ := some 300 }] :=
  (moveTo_last_registration
    [RegistryCall.register { name := 1, throws := fun _ _ => false } (some 7),
     RegistryCall.unregister,
     RegistryCall.register { name := 3, throws := fun _ _ => false } (some 8)]
    chart1000 (exampleTask 100 300 false) 400 false).2 throwingRegistry (List.cons_ne_nil _ _)

/-! ### Milestones -/

/-- When `model.to` is not the number `0`, `isMilestone()` is true if and only if `to` is
unset or `from` and `to` have the same timestamp. It holds in particular for every moment
or `Date` object in `to`. -/
theorem isMilestone_iff_of_ne_zero (from_ to_ : DateValue) (hto : to_ ≠ DateValue.number 0) :
    isMilestone from_ to_ = true ↔
      (to_ = DateValue.undefined ∨
       ∃ a b, from_.valueOf = some a ∧ to_.valueOf = some b ∧ a = b) := by
  cases from_ <;> cases to_ <;>
    simp [isMilestone, DateValue.truthy, DateValue.valueOf, sub_eq_zero] at hto ⊢ <;>
    omega

/-- C15, failing input: for the model `from = -3600000`, `to = 0`, both numbers of
milliseconds, `to` is set and `to > from`, and `isMilestone()` is true. -/
theorem isMilestone_epoch_number :
    isMilestone (DateValue.number (-3600000)) (DateValue.number 0) = true ∧
    DateValue.number 0 ≠ DateValue.undefined ∧
    (0 : Int) > -3600000 := by
  decide

end GanttTask

namespace GanttTask

/-! ### The change notification -/

theorem updatePosAndSize_notification (g : Gantt) (t : Task) :
    (notificationDue g t (updatePosAndSize g t).1 →
      (updatePosAndSize g t).2 = [Event.viewChange (updatePosAndSize g t).1]) ∧
    (¬ notificationDue g t (updatePosAndSize g t).1 → (updatePosAndSize g t).2 = []) := by
  rw [updatePosAndSize_fst]
  unfold updatePosAndSize notificationDue
  dsimp only
  by_cases hb : (!g.isRefreshingColumns &&
      (t.left != (updatedTask g t).left || strictNe t.width (updatedTask g t).width ||
       t.truncatedRight != (updatedTask g t).truncatedRight ||
       t.truncatedLeft != (updatedTask g t).truncatedLeft)) = true
  · rw [if_pos hb]
    exact ⟨fun _ => rfl, fun hn => absurd (by
      simp only [Bool.and_eq_true, Bool.or_eq_true, bne_iff_ne, Bool.not_eq_true'] at hb
      tauto) hn⟩
  · rw [if_neg hb]
    exact ⟨fun hd => absurd (by
      simp only [Bool.and_eq_true, Bool.or_eq_true, bne_iff_ne, Bool.not_eq_true']
      tauto) hb, fun _ => rfl⟩

theorem gesture_notification (g : Gantt) (before t : Task)
    (hl : before.left = t.left) (hw : before.width = t.width)
    (htl : before.truncatedLeft = t.truncatedLeft)
    (htr : before.truncatedRight = t.truncatedRight) :
    (notificationDue g before (updatePosAndSize g t).1 →
      (Event.setFromTo :: (updatePosAndSize g t).2).filter Event.isViewChange
        = [Event.viewChange (updatePosAndSize g t).1]) ∧
    (¬ notificationDue g before (updatePosAndSize g t).1 →
      (Event.setFromTo :: (updatePosAndSize g t).2).filter Event.isViewChange = []) := by
  have hsame : notificationDue g before (updatePosAndSize g t).1 ↔
      notificationDue g t (updatePosAndSize g t).1 := by
    unfold notificationDue
    rw [hl, hw, htl, htr]
  obtain ⟨h1, h2⟩ := updatePosAndSize_notification g t
  constructor
  · intro hd
    rw [h1 (hsame.mp hd)]
    rfl
  · intro hd
    rw [h2 (fun h => hd (hsame.mpr h))]
    rfl

/-- Each gesture endpoint is `updatePosAndSize` on a task that differs from the given one in
its model only, preceded by the row update. -/
theorem gesture_shape (g : Gantt) (t : Task) (x : Int) (m : Bool) :
    (∃ u, setFrom g t x m
        = ((updatePosAndSize g u).1, Event.setFromTo :: (updatePosAndSize g u).2) ∧
      u.left = t.left ∧ u.width = t.width ∧ u.truncatedLeft = t.truncatedLeft ∧
      u.truncatedRight = t.truncatedRight) ∧
    (∃ u, setTo g t x m
        = ((updatePosAndSize g u).1, Event.setFromTo :: (updatePosAndSize g u).2) ∧
      u.left = t.left ∧ u.width = t.width ∧ u.truncatedLeft = t.truncatedLeft ∧
      u.truncatedRight = t.truncatedRight) ∧
    (∃ u, originalMoveTo g t x m
        = ((updatePosAndSize g u).1, Event.setFromTo :: (updatePosAndSize g u).2) ∧
      u.left = t.left ∧ u.width = t.width ∧ u.truncatedLeft = t.truncatedLeft ∧
      u.truncatedRight = t.truncatedRight) :=
  ⟨⟨_, rfl, rfl, rfl, rfl, rfl⟩, ⟨_, rfl, rfl, rfl, rfl, rfl⟩, ⟨_, rfl, rfl, rfl, rfl, rfl⟩⟩

theorem originalMoveTo_notification (g : Gantt) (t : Task) (x : Int) (m : Bool) :
    (notificationDue g t (originalMoveTo g t x m).1 →
      (originalMoveTo g t x m).2.filter Event.isViewChange
        = [Event.viewChange (originalMoveTo g t x m).1]) ∧
    (¬ notificationDue g t (originalMoveTo g t x m).1 →
      (originalMoveTo g t x m).2.filter Event.isViewChange = []) := by
  obtain ⟨u, he, hl, hw, htl, htr⟩ := (gesture_shape g t x m).2.2
  rw [he]
  exact gesture_notification g t u hl.symm hw.symm htl.symm htr.symm

theorem not_notificationDue_self (g : Gantt) (t : Task) (h : t.width ≠ some Num.nan) :
    ¬ notificationDue g t t := by
  unfold notificationDue
  simp [strictNe_self_eq_false t.width h]

/-- C16: `updatePosAndSize` raises `viewChange` exactly once, with the updated task as payload,
when the chart is not refreshing its columns and one of `left`, `width`, `truncatedLeft`,
`truncatedRight` differs (in the sense of `!==`) from its value before the call, and does not
raise it otherwise. The same holds for the notifications of a `setFrom` or `setTo` call and
of a `moveTo` call that returns; a `moveTo` whose callback throws raises none and leaves the
task as it was. -/
theorem viewChange_rule (r : Registry) (g : Gantt) (t : Task) (x : Int) (m : Bool) :
    ((notificationDue g t (updatePosAndSize g t).1 →
        (updatePosAndSize g t).2 = [Event.viewChange (updatePosAndSize g t).1]) ∧
     (¬ notificationDue g t (updatePosAndSize g t).1 → (updatePosAndSize g t).2 = [])) ∧
    ((notificationDue g t (setFrom g t x m).1 →
        (setFrom g t x m).2.filter Event.isViewChange
          = [Event.viewChange (setFrom g t x m).1]) ∧
     (¬ notificationDue g t (setFrom g t x m).1 →
        (setFrom g t x m).2.filter Event.isViewChange = [])) ∧
    ((notificationDue g t (setTo g t x m).1 →
        (setTo g t x m).2.filter Event.isViewChange = [Event.viewChange (setTo g t x m).1]) ∧
     (¬ notificationDue g t (setTo g t x m).1 →
        (setTo g t x m).2.filter Event.isViewChange = [])) ∧
    ((moveTo r g t x m).thrown = false →
      (notificationDue g t (moveTo r g t x m).task →
        (moveTo r g t x m).events.filter Event.isViewChange
          = [Event.viewChange (moveTo r g t x m).task]) ∧
      (¬ notificationDue g t (moveTo r g t x m).task →
        (moveTo r g t x m).events.filter Event.isViewChange = [])) ∧
    ((moveTo r g t x m).thrown = true →
      (moveTo r g t x m).events.filter Event.isViewChange = [] ∧
      (moveTo r g t x m).task = t) := by
  refine ⟨updatePosAndSize_notification g t, ?_, ?_, ?_, ?_⟩
  · obtain ⟨u, he, hl, hw, htl, htr⟩ := (gesture_shape g t x m).1
    rw [he]
    exact gesture_notification g t u hl.symm hw.symm htl.symm htr.symm
  · obtain ⟨u, he, hl, hw, htl, htr⟩ := (gesture_shape g t x m).2.1
    rw [he]
    exact gesture_notification g t u hl.symm hw.symm htl.symm htr.symm
  · unfold moveTo
    rcases hreg : r.moveToCallbackFn with _ | fn
    · intro _
      exact originalMoveTo_notification g t x m
    · dsimp only
      by_cases hthrow : fn.throws r.moveToCallbackFnThis t.model = true
      · simp only [hthrow, if_true]
        intro h
        exact absurd h (by simp)
      · simp only [hthrow, if_false]
        intro _
        exact originalMoveTo_notification g t x m
  · unfold moveTo
    rcases hreg : r.moveToCallbackFn with _ | fn
    · intro h
      exact absurd h (by simp)
    · dsimp only
      by_cases hthrow : fn.throws r.moveToCallbackFnThis t.model = true
      · simp only [hthrow, if_true]
        intro _
        refine ⟨?_, ?_⟩ <;> first | rfl | trivial
      · simp only [hthrow, if_false]
        intro h
        exact absurd h (by simp)

/-- C16, witness: the first layout of a task on the chart of width `1000` changes `left` and
`width` and raises the notification. -/
theorem viewChange_rule_witness :
    (updatePosAndSize chart1000 (exampleTask 100 300 false)).2
      = [Event.viewChange (updatePosAndSize chart1000 (exampleTask 100 300 false)).1] :=
  (viewChange_rule exampleRegistry chart1000 (exampleTask 100 300 false) 0 false).1.1
    ⟨rfl, Or.inl (by decide)⟩

end GanttTask

namespace GanttTask

/-! ### Repeated calls -/

theorem resolve_resolve (W M : Int) (a : Option Int) (b : Option Num) (t : Task) :
    resolve W M a b (resolve W M a b t) = resolve W M a b t := by
  unfold resolve
  rcases a with _ | ml <;> rcases b with _ | mw
  · rfl
  · rfl
  · rfl
  · dsimp only
    split_ifs <;> rfl

theorem resolve_model (W M : Int) (a : Option Int) (b : Option Num) (t : Task) :
    (resolve W M a b t).model = t.model ∧ (resolve W M a b t).isMoving = t.isMoving ∧
    (resolve W M a b t).modelLeft = t.modelLeft ∧
    (resolve W M a b t).modelWidth = t.modelWidth := by
  unfold resolve
  rcases a with _ | ml <;> rcases b with _ | mw
  · exact ⟨rfl, rfl, rfl, rfl⟩
  · exact ⟨rfl, rfl, rfl, rfl⟩
  · exact ⟨rfl, rfl, rfl, rfl⟩
  · dsimp only
    split_ifs <;> exact ⟨rfl, rfl, rfl, rfl⟩

theorem storedModel_congr (g : Gantt) (t1 t2 : Task) (hm : t1.model = t2.model)
    (hi : t1.isMoving = t2.isMoving) : storedModel g t1 = storedModel g t2 := by
  unfold storedModel isOutOfRange
  rw [hm, hi]

theorem localModel_congr (g : Gantt) (t1 t2 : Task) (hm : t1.model = t2.model)
    (hi : t1.isMoving = t2.isMoving) : localModel g t1 = localModel g t2 := by
  unfold localModel
  rw [hm, storedModel_congr g t1 t2 hm hi]

theorem Task.with_stored_eq (u : Task) (a : Option Int) (b : Option Num)
    (ha : u.modelLeft = a) (hb : u.modelWidth = b) :
    { u with modelLeft := a, modelWidth := b } = u := by
  subst ha
  subst hb
  rfl

theorem updatedTask_of_same (g : Gantt) (u t : Task) (hm : u.model = t.model)
    (hi : u.isMoving = t.isMoving) (hl : u.modelLeft = (storedModel g t).1)
    (hw : u.modelWidth = (storedModel g t).2) :
    updatedTask g u =
      resolve g.width (maxModelLeft g) (localModel g t).1 (localModel g t).2 u := by
  unfold updatedTask
  rw [localModel_congr g u t hm hi, storedModel_congr g u t hm hi,
    Task.with_stored_eq u _ _ hl hw]

theorem updatedTask_idempotent (g : Gantt) (t : Task) :
    updatedTask g (updatedTask g t) = updatedTask g t := by
  obtain ⟨hm, hi, hl, hw⟩ := resolve_model g.width (maxModelLeft g) (localModel g t).1
    (localModel g t).2
    { t with modelLeft := (storedModel g t).1, modelWidth := (storedModel g t).2 }
  rw [updatedTask_of_same g (updatedTask g t) t hm hi hl hw]
  exact resolve_resolve _ _ _ _ _

/-- C17, counterexample: a task whose `to` is unset, on the chart of width `1000`: the first
`updatePosAndSize` leaves the width `NaN`, and the second call, which leaves every field as
it is, raises `viewChange` again, because `NaN !== NaN`. -/
theorem idempotent_counterexample :
    (openTask 100).model.to_ = none ∧
    (updatePosAndSize chart1000 (openTask 100)).1.width = some Num.nan ∧
    (updatePosAndSize chart1000 (updatePosAndSize chart1000 (openTask 100)).1).1
      = (updatePosAndSize chart1000 (openTask 100)).1 ∧
    (updatePosAndSize chart1000 (updatePosAndSize chart1000 (openTask 100)).1).2
      = [Event.viewChange (updatePosAndSize chart1000 (openTask 100)).1] := by
  decide

/-- C17, amended: for a fixed chart, a second `updatePosAndSize` right after the first leaves
the task as the first call left it (`modelLeft`, `modelWidth`, `left`, `width`,
`truncatedLeft`, `truncatedRight` and all other fields; a width that is `NaN` stays `NaN`).
It raises no `viewChange` notification when the width left by the first call is not `NaN`,
which is so for every task whose `to` is set and in `daily` mode; when that width is `NaN`
and the chart is not refreshing its columns, it raises the notification again. -/
theorem updatePosAndSize_idempotent (g : Gantt) (t : Task) :
    (updatePosAndSize g (updatePosAndSize g t).1).1 = (updatePosAndSize g t).1 ∧
    ((updatePosAndSize g t).1.width ≠ some Num.nan →
      (updatePosAndSize g (updatePosAndSize g t).1).2 = []) ∧
    (g.daily = true ∨ t.model.to_ ≠ none →
      (updatePosAndSize g (updatePosAndSize g t).1).2 = []) ∧
    ((updatePosAndSize g t).1.width = some Num.nan → g.isRefreshingColumns = false →
      (updatePosAndSize g (updatePosAndSize g t).1).2
        = [Event.viewChange (updatePosAndSize g t).1]) := by
  have h1 : (updatePosAndSize g (updatePosAndSize g t).1).1 = (updatePosAndSize g t).1 := by
    rw [updatePosAndSize_fst, updatePosAndSize_fst, updatedTask_idempotent]
  have hquiet : (updatePosAndSize g t).1.width ≠ some Num.nan →
      (updatePosAndSize g (updatePosAndSize g t).1).2 = [] := by
    intro hne
    apply (updatePosAndSize_notification g (updatePosAndSize g t).1).2
    rw [h1]
    exact not_notificationDue_self g _ hne
  refine ⟨h1, hquiet, fun hto => hquiet (fun hnan => ?_), fun hnan hr => ?_⟩
  · rw [updatePosAndSize_fst] at hnan
    exact (updatedTask_width g t Num.nan hnan).1 (localModel_width_num g t hto)
  · have hdue : notificationDue g (updatePosAndSize g t).1
        (updatePosAndSize g (updatePosAndSize g t).1).1 := by
      rw [h1]
      refine ⟨hr, Or.inr (Or.inl ?_)⟩
      rw [hnan]
      rfl
    rw [(updatePosAndSize_notification g (updatePosAndSize g t).1).1 hdue, h1]

/-- C17, witness: a task from `100` to `300` on the chart of width `1000`: the second call
raises nothing. -/
theorem updatePosAndSize_idempotent_witness :
    (exampleTask 100 300 false).model.to_ ≠ none ∧
    (updatePosAndSize chart1000 (updatePosAndSize chart1000 (exampleTask 100 300 false)).1).2
      = [] :=
  ⟨by decide,
   (updatePosAndSize_idempotent chart1000 (exampleTask 100 300 false)).2.2.1
     (Or.inr (by decide))⟩

/-! ### Snapping and whole-day rendering -/

/-- C18: with `d = getDateByPosition(x, false)` and `unit = columnMagnetUnit`, `setFrom(x, snap)`
sets `model.from` to `startOf(d, unit)` when `snap` is on and to `d` otherwise, and leaves
`model.to`; `setTo(x, snap)` sets `model.to` to `endOf(d, unit)` when `snap` is on and to `d`
otherwise, and leaves `model.from`; `moveTo(x, snap)`, when no registered callback throws,
returns and sets `model.from` as `setFrom` does. -/
theorem gesture_snap_rule (r : Registry) (g : Gantt) (t : Task) (x : Int) (snap : Bool) :
    ((setFrom g t x snap).1.model.from_ =
        (if snap then g.startOf g.columnMagnetUnit (g.getDateByPosition (some x) false)
         else g.getDateByPosition (some x) false) ∧
     (setFrom g t x snap).1.model.to_ = t.model.to_) ∧
    ((setTo g t x snap).1.model.to_ =
        some (if snap then g.endOf g.columnMagnetUnit (g.getDateByPosition (some x) false)
              else g.getDateByPosition (some x) false) ∧
     (setTo g t x snap).1.model.from_ = t.model.from_) ∧
    ((∀ fn, r.moveToCallbackFn = some fn →
        fn.throws r.moveToCallbackFnThis t.model = false) →
      (moveTo r g t x snap).thrown = false ∧
      (moveTo r g t x snap).task.model.from_ =
        (if snap then g.startOf g.columnMagnetUnit (g.getDateByPosition (some x) false)
         else g.getDateByPosition (some x) false)) := by
  have horig : (originalMoveTo g t x snap).1.model.from_ =
      (if snap then g.startOf g.columnMagnetUnit (g.getDateByPosition (some x) false)
       else g.getDateByPosition (some x) false) := by
    unfold originalMoveTo
    dsimp only
    rw [updatePosAndSize_fst, (updatedTask_stored g _).2.2]
  refine ⟨⟨?_, ?_⟩, ⟨?_, ?_⟩, fun hhook => ?_⟩
  · unfold setFrom
    dsimp only
    rw [updatePosAndSize_fst, (updatedTask_stored g _).2.2]
  · unfold setFrom
    dsimp only
    rw [updatePosAndSize_fst, (updatedTask_stored g _).2.2]
  · unfold setTo
    dsimp only
    rw [updatePosAndSize_fst, (updatedTask_stored g _).2.2]
  · unfold setTo
    dsimp only
    rw [updatePosAndSize_fst, (updatedTask_stored g _).2.2]
  · unfold moveTo
    rcases hfn : r.moveToCallbackFn with _ | fn
    · exact ⟨rfl, horig⟩
    · have hno := hhook fn hfn
      simp only [hno, Bool.false_eq_true, if_false]
      exact ⟨trivial, horig⟩

/-- C18, witness: on the chart of width `1000` the unit is the day (`1440` ticks); the position
`2000` is the date `2000`, whose day starts at `1440` and ends at `2879`. -/
theorem gesture_snap_rule_witness :
    ((setFrom chart1000 (exampleTask 100 300 false) 2000 true).1.model.from_ = 1440 ∧
     (setTo chart1000 (exampleTask 100 300 false) 2000 true).1.model.to_ = some 2879 ∧
     (setTo chart1000 (exampleTask 100 300 false) 2000 false).1.model.to_ = some 2000) ∧
    ((moveTo exampleRegistry chart1000 (exampleTask 100 300 false) 2000 true).thrown = false ∧
     (moveTo exampleRegistry chart1000 (exampleTask 100 300 false) 2000 true).task.model.from_ =
       (if true = true then
          chart1000.startOf chart1000.columnMagnetUnit
            (chart1000.getDateByPosition (some 2000) false)
        else chart1000.getDateByPosition (some 2000) false)) :=
  ⟨by decide,
   (gesture_snap_rule exampleRegistry chart1000 (exampleTask 100 300 false) 2000 true).2.2
     (fun fn h => by
       have e : fn = { name := 1, throws := fun _ _ => false } := (Option.some.inj h).symm
       rw [e])⟩

/-- C19, counterexample: on the `daily` chart whose snapping unit is the hour, for the task
from 13:00 to 14:00 of day `0` the clipped geometry is that of the whole day (`modelLeft`
`-720`, `modelWidth` `1439`), not that of the hours (`60` and `119`). -/
theorem daily_unit_counterexample :
    chartDailyHour.daily = true ∧ chartDailyHour.columnMagnetUnit = TimeUnit.hour ∧
    localModel chartDailyHour (exampleTask 780 840 false) = (some (-720), some (.num 1439)) ∧
    chartDailyHour.getPositionByDate
      (chartDailyHour.startOf chartDailyHour.columnMagnetUnit 780) = 60 ∧
    chartDailyHour.getPositionByDate (chartDailyHour.endOf chartDailyHour.columnMagnetUnit 840)
      - chartDailyHour.getPositionByDate
          (chartDailyHour.startOf chartDailyHour.columnMagnetUnit 780) = 119 ∧
    (updatePosAndSize chartDailyHour (exampleTask 780 840 false)).1.left = some 0 ∧
    (updatePosAndSize chartDailyHour (exampleTask 780 840 false)).1.width = some (.num 719) := by
  decide

/-- C19, amended: when the `daily` mode is on, the geometry that `updatePosAndSize` clips is
`left = getPositionByDate(startOf(model.from, day))` and
`width = getPositionByDate(endOf(model.to, day)) - left`: the unit is always the day, whatever
unit governs the snapping. (For an unset `model.to`, `moment(model.to)` is the current
time.) -/
theorem updatePosAndSize_daily (g : Gantt) (t : Task) (hd : g.daily = true) :
    localModel g t =
      (some (g.getPositionByDate (g.startOf TimeUnit.day t.model.from_)),
       some (.num (g.getPositionByDate (g.endOf TimeUnit.day (t.model.to_.getD g.now))
              - g.getPositionByDate (g.startOf TimeUnit.day t.model.from_)))) ∧
    (∀ d, t.model.to_ = some d →
      localModel g t =
        (some (g.getPositionByDate (g.startOf TimeUnit.day t.model.from_)),
         some (.num (g.getPositionByDate (g.endOf TimeUnit.day d)
                - g.getPositionByDate (g.startOf TimeUnit.day t.model.from_))))) ∧
    (updatePosAndSize g t).1 =
      resolve g.width (maxModelLeft g)
        (some (g.getPositionByDate (g.startOf TimeUnit.day t.model.from_)))
        (some (.num (g.getPositionByDate (g.endOf TimeUnit.day (t.model.to_.getD g.now))
              - g.getPositionByDate (g.startOf TimeUnit.day t.model.from_))))
        { t with modelLeft := (storedModel g t).1, modelWidth := (storedModel g t).2 } := by
  have hloc : localModel g t =
      (some (g.getPositionByDate (g.startOf TimeUnit.day t.model.from_)),
       some (.num (g.getPositionByDate (g.endOf TimeUnit.day (t.model.to_.getD g.now))
              - g.getPositionByDate (g.startOf TimeUnit.day t.model.from_)))) := by
    unfold localModel
    rw [if_pos hd]
  refine ⟨hloc, fun d hto => ?_, ?_⟩
  · rw [hloc, hto]
    rfl
  · rw [updatePosAndSize_fst]
    unfold updatedTask
    rw [hloc]

/-- C19, witness: the `daily` chart whose snapping unit is the hour. -/
theorem updatePosAndSize_daily_witness :
    localModel chartDailyHour (exampleTask 780 840 false) =
      (some (chartDailyHour.getPositionByDate
              (chartDailyHour.startOf TimeUnit.day (exampleTask 780 840 false).model.from_)),
       some (.num (chartDailyHour.getPositionByDate
              (chartDailyHour.endOf TimeUnit.day 840)
              - chartDailyHour.getPositionByDate
                  (chartDailyHour.startOf TimeUnit.day
                    (exampleTask 780 840 false).model.from_)))) :=
  (updatePosAndSize_daily chartDailyHour (exampleTask 780 840 false) rfl).2.1 840 rfl

/-! ### The right edge -/

/-- C20, counterexample: a task whose `to` is unset, on the chart of width `1000`: `left` is
`100` and `width` is `NaN`, both defined, and `left + width <= 1000` is false. -/
theorem right_edge_counterexample :
    ((openTask 100).model.to_ = none ∧
     (updatePosAndSize chart1000 (openTask 100)).1.left = some 100 ∧
     (updatePosAndSize chart1000 (openTask 100)).1.width = some Num.nan ∧
     Num.le (Num.add (.num 100) Num.nan) (.num chart1000.width) = false) ∧
    ¬ ∀ (g : Gantt) (t : Task) (l : Int) (w : Num),
        (updatePosAndSize g t).1.left = some l → (updatePosAndSize g t).1.width = some w →
        Num.le (Num.add (.num l) w) (.num g.width) = true := by
  refine ⟨by decide, fun h => ?_⟩
  have h1 := h chart1000 (openTask 100) 100 Num.nan (by decide) (by decide)
  exact absurd h1 (by decide)

/-- C20, amended: whenever `updatePosAndSize` leaves `left` and `width` defined and `width` is
a number (not `NaN`), `left + width` does not exceed the viewport width, for every
`modelLeft`, `modelWidth`, right bound of the last column and viewport width (also a negative
one). The width is a number whenever the `modelWidth` that is read is one, as for every task
whose `to` is set and in `daily` mode. -/
theorem updatePosAndSize_right_edge (g : Gantt) (t : Task) (l : Int) (w : Num)
    (hl : (updatePosAndSize g t).1.left = some l)
    (hw : (updatePosAndSize g t).1.width = some w) :
    (∀ n, w = .num n → l + n ≤ g.width) ∧
    (w ≠ Num.nan → Num.le (Num.add (.num l) w) (.num g.width) = true) ∧
    (g.daily = true ∨ t.model.to_ ≠ none →
      Num.le (Num.add (.num l) w) (.num g.width) = true) := by
  rw [updatePosAndSize_fst] at hl hw
  have hnum : ∀ n, w = .num n → l + n ≤ g.width := by
    intro n hn
    subst hn
    rcases h1 : (localModel g t).1 with _ | ml
    · rw [(updatedTask_undefined g t (Or.inl h1)).1] at hl
      exact absurd hl (by simp)
    rcases h2 : (localModel g t).2 with _ | mw
    · rw [(updatedTask_undefined g t (Or.inr h2)).1] at hl
      exact absurd hl (by simp)
    rcases mw with _ | mw
    · have hnan := (updatedTask_width g t (.num n) hw).2 h2
      exact absurd hnan (by simp)
    · have hlocal : localModel g t = (some ml, some (.num mw)) := Prod.ext h1 h2
      by_cases hoff : ml + mw < 0 ∨ ml > maxModelLeft g
      · rw [(updatedTask_offScreen g t ml mw hlocal hoff).1] at hl
        exact absurd hl (by simp)
      · obtain ⟨e1, e2, _, _⟩ := updatedTask_onScreen g t ml mw hlocal hoff
        obtain ⟨l0, w0, f1, f2, _, _, hsum, _⟩ := flipWidth_truncate_num g.width ml mw
        rw [e1, f1] at hl
        rw [e2, f2] at hw
        have el : l0 = l := Option.some.inj hl
        have ew : w0 = n := Num.num.inj (Option.some.inj hw)
        omega
  have hle : w ≠ Num.nan → Num.le (Num.add (.num l) w) (.num g.width) = true := by
    intro hne
    rcases w with _ | n
    · exact absurd rfl hne
    · simp only [Num.add, Num.le, decide_eq_true_eq]
      exact hnum n rfl
  refine ⟨hnum, hle, fun hto => hle (fun hnan => ?_)⟩
  subst hnan
  exact (updatedTask_width g t Num.nan hw).1 (localModel_width_num g t hto)

/-- C20, witness: `modelLeft = 3000` beyond the viewport width `1000`, with the inverted
`modelWidth = -100`, gives `left = -1000` and `width = 2000`, whose sum is `1000`. -/
theorem updatePosAndSize_right_edge_witness :
    ((updatePosAndSize chartWide (exampleTask 3000 2900 false)).1.left = some (-1000) ∧
     (updatePosAndSize chartWide (exampleTask 3000 2900 false)).1.width = some (.num 2000)) ∧
    (-1000 : Int) + 2000 ≤ chartWide.width :=
  ⟨by decide,
   (updatePosAndSize_right_edge chartWide (exampleTask 3000 2900 false) (-1000) (.num 2000)
     (by decide) (by decide)).1 2000 rfl⟩

end GanttTask
